import Mathlib

/-!
Verification development for the batch rendering and post-processing
pipeline of the webpage export plugin (source: render-api.ts).

The development shallowly embeds:
  - the generic polling waiter `waitUntil` (a fueled, structurally
    recursive model of the setInterval loop, indexed by poll tick);
  - the batch session state machine (`beginBatch`, `endBatch`,
    `checkCancelled`, the log and progress reporting channels);
  - the control-flow skeleton of `renderFile`, `renderMarkdown` and
    `renderMarkdownView` (DOM mutation that never touches session state
    is recorded in comments; asynchronous outcomes of the opaque render
    surface are supplied by small environment records);
  - the per-node inline-vs-reference decision of `renderCanvas`;
  - the post-processing pipeline `postProcessHTML` and the heading tree
    builder `makeHeadingsTrees` over an explicit element-tree type.
-/

/-! ### PollingWaiter: waitUntil -/

/-- Model of the `setInterval` polling loop inside `waitUntil`.
`condition n` is the value the predicate returns the n-th time it is
evaluated (evaluation 0 is the immediate check before any timer is
scheduled).  `timer` accumulates elapsed milliseconds exactly as the
source does (`timer += interval` after each failed poll, resolve `false`
once `timer >= timeout`).  The result records the resolved boolean and
the tick at which the promise resolved.  `fuel` is an upper bound on the
number of polls; with a positive interval the source loop runs at most
`timeout` polls, so the fuel branch is unreachable for the fuel chosen
by `waitUntil`. -/
def waitUntilGo (condition : Nat → Bool) (timeout interval : Nat) :
    Nat → Nat → Nat → Bool × Nat
  | 0, _, tick => (false, tick)
  | fuel + 1, timer, tick =>
    if condition tick then (true, tick)
    else if timeout ≤ timer + interval then (false, tick)
    else waitUntilGo condition timeout interval fuel (timer + interval) (tick + 1)

/-- Model of `waitUntil(condition, timeout, interval)`: immediate check
first (resolving `(true, 0)` without scheduling any timer), then the
polling loop starting at tick 1 with `timer = 0`. -/
def waitUntil (condition : Nat → Bool) (timeout interval : Nat) : Bool × Nat :=
  if condition 0 then (true, 0)
  else waitUntilGo condition timeout interval (timeout + 1) 0 1

/-! ### Session state

The mutable module state of `_MarkdownRendererInternal` plus the pieces
of `ExportLog` and of the external `Settings` module that the control
flow reads.  `renderLeaf = some b` models a live `WorkspaceLeaf` handle
where `b` records whether the leaf is attached to a parent (so that
`renderLeaf.parent.parent` dereferences succeed); `none` models the
handle being `undefined`.  `detachCount` counts `renderLeaf.detach()`
calls (releases of the render surface window).  `fullLog` is the
append-only cumulative `ExportLog.fullLog`; `widgetLog` the entries
mirrored into the visible batch log widget; `progressReports` the
messages that actually reached the progress indicator. -/

inductive LogLevel where
  | info
  | warning
  | error
deriving DecidableEq

structure LogEntry where
  level : LogLevel
  title : String
  message : String
deriving DecidableEq

structure RenderState where
  renderLeaf : Option Bool
  electronWindow : Bool
  errorInBatch : Bool
  cancelled : Bool
  batchStarted : Bool
  loadingContainer : Bool
  fileListContainer : Bool
  logShowing : Bool
  settingsLoaded : Bool
  logLevel : String
  fullLog : List LogEntry
  widgetLog : List LogEntry
  progressReports : List String
  detachCount : Nat
deriving DecidableEq

/-- A fully inactive session with default (not yet loaded) settings. -/
def inactiveState : RenderState :=
  { renderLeaf := none, electronWindow := false, errorInBatch := false,
    cancelled := false, batchStarted := false, loadingContainer := false,
    fileListContainer := false, logShowing := false, settingsLoaded := false,
    logLevel := "all", fullLog := [], widgetLog := [], progressReports := [],
    detachCount := 0 }

/-- Model of `appendLogEl`: requires the loading container and the leaf
to exist, enlarges the window and flips `logShowing` on first use, then
appends the entry to the visible log widget. -/
def appendLogEl (entry : LogEntry) (s : RenderState) : RenderState :=
  if s.loadingContainer = false ∨ s.renderLeaf = none then s
  else
    let s1 := if s.logShowing = false then { s with logShowing := true } else s
    { s1 with widgetLog := s1.widgetLog ++ [entry] }

/-- Model of `_reportInfo`: no-op outside a batch; waits (100ms/10ms)
for the leaf to be attached (`renderLeaf.parent.parent`), bailing out if
it is not, then appends to the widget log. -/
def reportInfo (title message : String) (s : RenderState) : RenderState :=
  if s.batchStarted = false then s
  else if s.renderLeaf ≠ some true then s
  else appendLogEl ⟨LogLevel.info, title, message⟩ s

/-- Model of `_reportWarning` (same guard structure as `_reportInfo`). -/
def reportWarning (title message : String) (s : RenderState) : RenderState :=
  if s.batchStarted = false then s
  else if s.renderLeaf ≠ some true then s
  else appendLogEl ⟨LogLevel.warning, title, message⟩ s

/-- Model of `_reportError`: no-op outside a batch; otherwise marks
`errorInBatch` before anything else, then (only if the leaf is attached)
appends to the widget log and, for a fatal error, invalidates the leaf
handle and the loading container. -/
def reportError (title message : String) (fatal : Bool) (s : RenderState) :
    RenderState :=
  if s.batchStarted = false then s
  else
    let s1 := { s with errorInBatch := true }
    if s1.renderLeaf ≠ some true then s1
    else
      let s2 := appendLogEl ⟨LogLevel.error, title, message⟩ s1
      if fatal then { s2 with renderLeaf := none, loadingContainer := false }
      else s2

/-- Model of `ExportLog.log`: always appends to the cumulative log,
then mirrors to the widget unless the configured verbosity excludes
info-level output. -/
def exportLogLog (title message : String) (s : RenderState) : RenderState :=
  let s1 := { s with fullLog := s.fullLog ++ [⟨LogLevel.info, title, message⟩] }
  if s1.settingsLoaded = true ∧ s1.logLevel ≠ "all" then s1
  else reportInfo title message s1

/-- Model of `ExportLog.warning`. -/
def exportLogWarning (title message : String) (s : RenderState) : RenderState :=
  let s1 := { s with fullLog := s.fullLog ++ [⟨LogLevel.warning, title, message⟩] }
  if s1.settingsLoaded = true ∧ s1.logLevel ≠ "warning" ∧ s1.logLevel ≠ "all" then s1
  else reportWarning title message s1

/-- Model of `ExportLog.error`: always appends to the cumulative log;
non-fatal errors can be filtered by verbosity, fatal ones never are. -/
def exportLogError (title message : String) (fatal : Bool) (s : RenderState) :
    RenderState :=
  let s1 := { s with fullLog := s.fullLog ++ [⟨LogLevel.error, title, message⟩] }
  if s1.settingsLoaded = true ∧ fatal = false ∧ s1.logLevel ≠ "error" ∧
      s1.logLevel ≠ "warning" ∧ s1.logLevel ≠ "all" then s1
  else reportError title message fatal s1

/-- Model of `_reportProgress`: requires an active batch, an attached
leaf and the progress container, then records the message on the
progress surface. -/
def reportProgress (message : String) (s : RenderState) : RenderState :=
  if s.batchStarted = false then s
  else if s.renderLeaf ≠ some true then s
  else if s.loadingContainer = false then s
  else { s with progressReports := s.progressReports ++ [message] }

/-- Model of `endBatch`: no-op if no batch is started.  Otherwise, when
a leaf handle is present: with no error in the batch the render window
is closed (`renderLeaf.detach()`, counted by `detachCount`); with an
error it is left open and a terminal progress state is reported.  In
all cases the session state is then cleared to inactive. -/
def endBatch (s : RenderState) : RenderState :=
  if s.batchStarted = false then s
  else
    let s1 :=
      match s.renderLeaf with
      | some _ =>
        if s.errorInBatch = false then
          let s2 := exportLogLog "" "Closing render window" s
          { s2 with detachCount := s2.detachCount + 1 }
        else
          let s2 := exportLogWarning "" "Error in batch, leaving render window open" s
          reportProgress "Completed with errors" s2
      | none => s
    { s1 with electronWindow := false, renderLeaf := none,
              loadingContainer := false, fileListContainer := false,
              batchStarted := false }

/-- Model of `checkCancelled`: true exactly when the cancel flag is set
or the leaf handle is absent; in that case it logs and forces
`endBatch` before returning. -/
def checkCancelled (s : RenderState) : Bool × RenderState :=
  if s.cancelled = true ∨ s.renderLeaf = none then
    let s1 := exportLogLog "" "cancelled" s
    (true, endBatch s1)
  else (false, s)

/-! ### beginBatch

`beginBatch` interacts with the host environment (tab manager, electron
window) and with the asynchronous attachment of the new leaf to a
parent.  `BeginEnv` records the observable outcome of those external
interactions: whether the leaf attaches to a parent within the
2000ms/1ms wait, whether cancellation is observed by a poll before an
attachment, whether `renderLeaf.detach()` throws on the failure path,
and whether the electron window handle is obtained.  `beginBatch`
returns the new module state together with the exception it raises, if
any (the module state survives a thrown exception). -/

structure BeginEnv where
  leafAttaches : Bool
  cancelDuringWait : Bool
  detachThrows : Bool
  electronWindowOk : Bool
  displayProgress : Bool
deriving DecidableEq

/-- Model of `beginBatch`: no-op when a batch is already started.
Otherwise it resets the flags, marks the batch started, opens a new
leaf, and waits (2000ms/1ms) for `renderLeaf.parent` or cancellation.
On a pure cancellation the poll itself runs `checkCancelled` (ending
the batch) and the subsequent dereference of the cleared leaf handle
throws.  On a timeout the leaf is detached (a detach failure being
caught and logged) and, unless cancellation is observed, an exception
is raised to the caller.  On success the electron window is fetched
(bailing out with a full state reset if unavailable), the window is
positioned per `displayProgress`, the close signal is subscribed, and
the progress container is created. -/
def beginBatch (env : BeginEnv) (s : RenderState) : RenderState × Option String :=
  if s.batchStarted = true then (s, none)
  else
    let s1 := { s with errorInBatch := false, cancelled := false,
                       batchStarted := true, loadingContainer := false,
                       logShowing := false }
    -- renderLeaf := TabManager.openNewTab("window", "vertical");
    -- markdownView := new MarkdownView(renderLeaf)
    let s2 := { s1 with renderLeaf := some env.leafAttaches }
    if env.cancelDuringWait = true ∧ env.leafAttaches = false then
      -- a poll observes cancellation: checkCancelled logs, ends the batch
      -- and makes the wait resolve true; the following read of
      -- renderLeaf.view then dereferences undefined and throws
      let s3 := { s2 with cancelled := true }
      let r := checkCancelled s3
      (r.2, some "TypeError: renderLeaf is undefined")
    else if env.leafAttaches = false then
      -- parentFound = false: try renderLeaf.detach() (errors caught and
      -- logged), then raise unless cancellation is observed
      let s3 :=
        if env.detachThrows = true then
          exportLogError "Failed to detach render leaf: " "detach failed" false s2
        else { s2 with detachCount := s2.detachCount + 1 }
      let r := checkCancelled s3
      if r.1 = false then (r.2, some "Failed to create leaf for rendering!")
      else (r.2, none)
    else
      if env.electronWindowOk = false then
        ({ s2 with errorInBatch := false, cancelled := false,
                   batchStarted := false, renderLeaf := none,
                   electronWindow := false }, none)
      else
        -- window sizing, positioning and the always-on-top flag are
        -- UI-only; the close signal subscription and the progress
        -- container are recorded in the state
        let s3 := { s2 with electronWindow := true }
        let s4 := { s3 with loadingContainer := true }
        (s4, none)

/-! ### renderFile and renderMarkdown -/

/-- Model of `failRender`: if cancellation is observed the cancelled
cleanup has run and the call silently yields no result; otherwise a
non-fatal error is logged and the call yields no result. -/
def failRenderState (message : String) (s : RenderState) : RenderState :=
  let r := checkCancelled s
  if r.1 = true then r.2
  else exportLogError "Rendering failed: " message false r.2

/-- Observable outcomes of the external interactions of one
`renderFile` / `renderMarkdown` call: the environment for an implicit
`beginBatch`, whether loading the document into the leaf throws,
whether the dispatched kind-specific renderer produces content, and
whether cancellation is observed while it runs. -/
structure DocEnv where
  beginEnv : BeginEnv
  loadThrows : Bool
  rendererResult : Bool
  cancelDuringRender : Bool
deriving DecidableEq

/-- Model of `renderFile`.  A viewable media extension short-circuits
into a static wrapper with no render surface involvement.  Otherwise a
lone batch is opened when none is active; the leaf wait resolves
immediately (its condition is true whenever the leaf is present, and
`checkCancelled` is true whenever it is not); loading and dispatching
follow, any failure being isolated to this document; the lone batch is
closed only on the fully successful path (and inside `checkCancelled`
when cancellation is observed).  The `Except` layer records a raised
exception; `Option Unit` is the `RenderResult or undefined` outcome. -/
def renderFile (isViewableMedia : Bool) (env : DocEnv) (s : RenderState) :
    Except String (Option Unit) × RenderState :=
  if isViewableMedia = true then
    -- createMediaPage builds the wrapper element directly
    (Except.ok (some ()), s)
  else
    let loneFile := s.batchStarted = false
    let sb :=
      if s.batchStarted = false then
        let s1 := exportLogLog "" "Exporting single file, starting batch" s
        beginBatch env.beginEnv s1
      else (s, none)
    match sb.2 with
    | some e => (Except.error e, sb.1)
    | none =>
      -- waitUntil(() => renderLeaf != undefined || checkCancelled(), 2000, 1):
      -- resolves true at the immediate check, running checkCancelled
      -- (and its endBatch side effect) when the leaf is absent
      let s2 :=
        if sb.1.renderLeaf = none then (checkCancelled sb.1).2 else sb.1
      if s2.renderLeaf = none then
        (Except.ok none, failRenderState "Failed to get leaf for rendering!" s2)
      else
        -- try renderLeaf.openFile(file, { active: false })
        if env.loadThrows = true then
          (Except.ok none, failRenderState "openFile threw" s2)
        else
          -- dispatch on the view type (markdown, kanban, excalidraw,
          -- canvas, generic); the dispatched renderer either produces a
          -- content element or does not, and may observe cancellation
          let s3 := if env.cancelDuringRender = true then
              { s2 with cancelled := true } else s2
          let html : Option Unit :=
            if env.rendererResult = true ∧ env.cancelDuringRender = false then
              some () else none
          let rc := checkCancelled s3
          if rc.1 = true then (Except.ok none, rc.2)
          else if html = none then
            (Except.ok none, failRenderState "Failed to render file!" rc.2)
          else
            let s4 := if loneFile then endBatch rc.2 else rc.2
            (Except.ok (some ()), s4)

/-- Model of `renderMarkdown`: the same skeleton as `renderFile`
without the media shortcut; the document is loaded with `setViewData`
(which may throw) and always dispatched to the markdown view
renderer. -/
def renderMarkdown (env : DocEnv) (s : RenderState) :
    Except String (Option Unit) × RenderState :=
  let loneFile := s.batchStarted = false
  let sb :=
    if s.batchStarted = false then
      let s1 := exportLogLog "" "Exporting single file, starting batch" s
      beginBatch env.beginEnv s1
    else (s, none)
  match sb.2 with
  | some e => (Except.error e, sb.1)
  | none =>
    let s2 :=
      if sb.1.renderLeaf = none then (checkCancelled sb.1).2 else sb.1
    if s2.renderLeaf = none then
      (Except.ok none, failRenderState "Failed to get leaf for rendering!" s2)
    else
      if env.loadThrows = true then
        (Except.ok none, failRenderState "setViewData threw" s2)
      else
        let s3 := if env.cancelDuringRender = true then
            { s2 with cancelled := true } else s2
        let html : Option Unit :=
          if env.rendererResult = true ∧ env.cancelDuringRender = false then
            some () else none
        let rc := checkCancelled s3
        if rc.1 = true then (Except.ok none, rc.2)
        else if html = none then
          (Except.ok none, failRenderState "Failed to render file!" rc.2)
        else
          let s4 := if loneFile then endBatch rc.2 else rc.2
          (Except.ok (some ()), s4)

/-! ### renderMarkdownView -/

/-- Observable outcomes of the asynchronous render-surface work for one
markdown section: whether the `rendered` flag flips within the
2000ms/1ms wait, whether the `computed` flag flips within the 2000ms/1ms
wait after measurement, whether nested transclusions populate within the
500ms/1ms wait, and whether generic plugin blocks populate within the
500ms/1ms wait. -/
structure SectionEnv where
  renderedInTime : Bool
  computedInTime : Bool
  transclusionsPopulated : Bool
  pluginsPopulated : Bool
deriving DecidableEq

/-- Model of one `waitUntil(() => flag || checkCancelled(), timeout, 1)`
stage: resolves true at once when the flag is set; otherwise, when the
session is cancelled or leafless, a poll runs `checkCancelled` (with its
`endBatch` side effect) and the wait still resolves true; otherwise the
wait times out and resolves false.  The timeout and interval arguments
record the budget at the call site. -/
def waitStage (timeout interval : Nat) (flag : Bool) (s : RenderState) :
    Bool × RenderState :=
  if flag = true then (true, s)
  else if s.cancelled = true ∨ s.renderLeaf = none then
    let r := checkCancelled s
    (true, r.2)
  else
    let _ := timeout
    let _ := interval
    (false, s)

/-- Model of the per-section body of `renderMarkdownView`.  The section
is reset, moved into the sizer and rendered (DOM-only); the 2000ms/1ms
waits for `rendered` and `computed` fail the whole document render via
`failRender` when they time out; dataview materialisation, the preview
post-process hook and callout unfolding are DOM-only; the 500ms/1ms
waits for transclusions and plugin blocks are followed by an explicit
cancellation check, and their timeouts only log warnings; canvas
elements are snapshotted into images (DOM-only). -/
def renderSection (env : SectionEnv) (s : RenderState) :
    Option Unit × RenderState :=
  let w1 := waitStage 2000 1 env.renderedInTime s
  if w1.1 = false then (none, failRenderState "Failed to render section!" w1.2)
  else
    -- renderer.measureSection(section)
    let w2 := waitStage 2000 1 env.computedInTime w1.2
    if w2.1 = false then (none, failRenderState "Failed to compute section!" w2.2)
    else
      -- dataview compilation, preview.postProcess, callout unfolding: DOM-only
      let w3 := waitStage 500 1 env.transclusionsPopulated w2.2
      let c1 := checkCancelled w3.2
      if c1.1 = true then (none, c1.2)
      else
        let s3 :=
          if env.transclusionsPopulated = false then
            exportLogWarning "" "Transclusions were not rendered correctly!" c1.2
          else c1.2
        let w4 := waitStage 500 1 env.pluginsPopulated s3
        let c2 := checkCancelled w4.2
        if c2.1 = true then (none, c2.2)
        else
          -- canvas elements converted to images: DOM-only
          let s4 :=
            if env.pluginsPopulated = false then
              exportLogWarning "" "Plugin element not rendered correctly!" c2.2
            else c2.2
          (some (), s4)

/-- Model of `renderMarkdownView` over the ordered section list.  The
prologue (unfolding, parsing, mermaid loading, container creation) and
the epilogue (awaiting collected promises, refolding callouts, pusher
element, re-appending section clones, banner relocation, container
flattening) are DOM-only; the per-section loop aborts the whole
document on the first failing section. -/
def renderMarkdownView (envs : List SectionEnv) (s : RenderState) :
    Option Unit × RenderState :=
  match envs with
  | [] => (some (), s)
  | e :: rest =>
    let r := renderSection e s
    match r.1 with
    | none => (none, r.2)
    | some _ => renderMarkdownView rest r.2

/-! ### renderCanvas -/

/-- One canvas node as `renderCanvas` observes it: the embedded file (if
the node embeds a document), whether the node element contains a
markdown embed content element, whether the child preview is available,
and an external URL for webpage cards. -/
structure CanvasNode where
  file : Option String
  hasEmbedEl : Bool
  hasChildPreview : Bool
  url : Option String
deriving DecidableEq

/-- The observable outcome of the per-node branch of `renderCanvas`. -/
inductive NodeOutput where
  | inlinedEmbed
  | referencePlaceholder (src : String)
  | plainNode
deriving DecidableEq

/-- Model of the per-node inline-vs-reference decision of
`renderCanvas`: for a node with a file and an embed element, the
embedded content is rendered inline (recursively through the markdown
view renderer) exactly when `(options.inlineHTML ||
!allExportedPaths.contains(nodeFile.path)) && childPreview`; otherwise
the embed element receives the static include placeholder and its
parent the `src` attribute holding the file path.  A fileless node with
an embed element and a child preview is also rendered inline. -/
def renderCanvasNode (inlineHTML : Bool) (allExportedPaths : List String)
    (node : CanvasNode) : NodeOutput :=
  match node.file, node.hasEmbedEl with
  | some p, true =>
    if (inlineHTML = true ∨ allExportedPaths.contains p = false) ∧
        node.hasChildPreview = true then
      NodeOutput.inlinedEmbed
    else
      NodeOutput.referencePlaceholder p
  | none, true =>
    if node.hasChildPreview = true then NodeOutput.inlinedEmbed
    else NodeOutput.plainNode
  | _, false => NodeOutput.plainNode

/-- Model of `renderCanvas` at the session level: the entry cancellation
check, the per-node decisions (zoom-to-fit, settle delays, node and
edge forced rendering, edge reassembly and URL frames are DOM/timing
only), and the final cancellation check.  `allExportedPaths` stands for
`Settings.getAllFilesFromPaths(options.filesToExport)`, modelled as the
identity on a list of plain file paths. -/
def renderCanvas (inlineHTML : Bool) (filesToExport : List String)
    (nodes : List CanvasNode) (s : RenderState) :
    Option (List NodeOutput) × RenderState :=
  let c0 := checkCancelled s
  if c0.1 = true then (none, c0.2)
  else
    let outs := nodes.map (renderCanvasNode inlineHTML filesToExport)
    let c1 := checkCancelled c0.2
    if c1.1 = true then (none, c1.2)
    else (some outs, c1.2)

/-! ### Element trees

An explicit DOM element model for the heading tree builder and the
post-processing pipeline.  `eid` is a node identity (used for the
in-place moves of the source); `value` is the live value property of
form controls together with its dirty flag (per the HTML form-control
model, once the property has been assigned, the content attribute no
longer reflects into it); `text` is the direct text content. -/

inductive Elem where
  | mk (eid : Nat) (tag : String) (classes : List String)
       (attrs : List (String × String)) (styles : List (String × String))
       (value : String) (valueDirty : Bool) (text : String)
       (children : List Elem)

def Elem.eid : Elem → Nat
  | .mk i _ _ _ _ _ _ _ _ => i

def Elem.tag : Elem → String
  | .mk _ t _ _ _ _ _ _ _ => t

def Elem.classes : Elem → List String
  | .mk _ _ c _ _ _ _ _ _ => c

def Elem.attrs : Elem → List (String × String)
  | .mk _ _ _ a _ _ _ _ _ => a

def Elem.styles : Elem → List (String × String)
  | .mk _ _ _ _ st _ _ _ _ => st

def Elem.value : Elem → String
  | .mk _ _ _ _ _ v _ _ _ => v

def Elem.text : Elem → String
  | .mk _ _ _ _ _ _ _ tx _ => tx

def Elem.children : Elem → List Elem
  | .mk _ _ _ _ _ _ _ _ cs => cs

def elSetChildren (cs : List Elem) : Elem → Elem
  | .mk i t c a st v d tx _ => .mk i t c a st v d tx cs

def hasClassE (c : String) (e : Elem) : Bool := e.classes.contains c

def addClassE (c : String) : Elem → Elem
  | .mk i t cl a st v d tx cs =>
    if cl.contains c then .mk i t cl a st v d tx cs
    else .mk i t (cl ++ [c]) a st v d tx cs

def attrGet (k : String) (a : List (String × String)) : Option String :=
  match a.find? (fun kv => kv.1 == k) with
  | some kv => some kv.2
  | none => none

def attrSet (k v : String) : List (String × String) → List (String × String)
  | [] => [(k, v)]
  | kv :: rest => if kv.1 == k then (k, v) :: rest else kv :: attrSet k v rest

def attrRemove (k : String) (a : List (String × String)) :
    List (String × String) :=
  a.filter (fun kv => kv.1 != k)

def styleGet (k : String) (st : List (String × String)) : Option String :=
  attrGet k st

def styleSet (k v : String) (st : List (String × String)) :
    List (String × String) :=
  attrSet k v st

/-- Character-wise string prefix test (used for the CSS attribute
selectors `[class^=...]`). -/
def charsStart : List Char → List Char → Bool
  | [], _ => true
  | _ :: _, [] => false
  | c :: cs, d :: ds => c == d && charsStart cs ds

def strStarts (p s : String) : Bool := charsStart p.data s.data

mutual
def elMap (f : Elem → Elem) : Elem → Elem
  | .mk i t c a st v d tx cs => f (.mk i t c a st v d tx (elMapF f cs))
def elMapF (f : Elem → Elem) : List Elem → List Elem
  | [] => []
  | x :: xs => elMap f x :: elMapF f xs
end

/-- `querySelectorAll` style per-element rewrite over the descendants of
a root (the root itself is never matched). -/
def elMapDesc (f : Elem → Elem) (root : Elem) : Elem :=
  elSetChildren (elMapF f root.children) root

mutual
def elExists (p : Elem → Bool) : Elem → Bool
  | .mk i t c a st v d tx cs =>
    p (.mk i t c a st v d tx cs) || elExistsF p cs
def elExistsF (p : Elem → Bool) : List Elem → Bool
  | [] => false
  | x :: xs => elExists p x || elExistsF p xs
end

mutual
def elFilterF (keep : Elem → Bool) : List Elem → List Elem
  | [] => []
  | x :: xs =>
    if keep x then elFilterKeep keep x :: elFilterF keep xs
    else elFilterF keep xs
def elFilterKeep (keep : Elem → Bool) : Elem → Elem
  | .mk i t c a st v d tx cs => .mk i t c a st v d tx (elFilterF keep cs)
end

mutual
def elFind (p : Elem → Bool) : Elem → Option Elem
  | .mk i t c a st v d tx cs =>
    if p (.mk i t c a st v d tx cs) then some (.mk i t c a st v d tx cs)
    else elFindF p cs
def elFindF (p : Elem → Bool) : List Elem → Option Elem
  | [] => none
  | x :: xs =>
    match elFind p x with
    | some r => some r
    | none => elFindF p xs
end

mutual
def elRemoveF (i : Nat) : List Elem → List Elem
  | [] => []
  | x :: xs =>
    if x.eid == i then elRemoveF i xs
    else elRemoveIn i x :: elRemoveF i xs
def elRemoveIn (i : Nat) : Elem → Elem
  | .mk e t c a st v d tx cs => .mk e t c a st v d tx (elRemoveF i cs)
end

mutual
def elInsertBeforeF (i : Nat) (newEl : Elem) : List Elem → List Elem
  | [] => []
  | x :: xs =>
    if x.eid == i then newEl :: x :: xs
    else elInsertBeforeIn i newEl x :: elInsertBeforeF i newEl xs
def elInsertBeforeIn (i : Nat) (newEl : Elem) : Elem → Elem
  | .mk e t c a st v d tx cs => .mk e t c a st v d tx (elInsertBeforeF i newEl cs)
end

mutual
def elParentIdF (pid i : Nat) : List Elem → Option Nat
  | [] => none
  | x :: xs =>
    if x.eid == i then some pid
    else
      match elParentIdIn i x with
      | some r => some r
      | none => elParentIdF pid i xs
def elParentIdIn (i : Nat) : Elem → Option Nat
  | .mk e _ _ _ _ _ _ _ cs => elParentIdF e i cs
end

/-! ### makeHeadingsTrees -/

/-- Substring search over character lists (structural, so that concrete
trees evaluate inside the kernel). -/
def charsSub (p : List Char) : List Char → Bool
  | [] => p.isEmpty
  | c :: cs => charsStart p (c :: cs) || charsSub p cs

def strContainsSub (p s : String) : Bool := charsSub p.data s.data

/-- Model of the `/[Hh][1-6]/g.test(tagName)` check of `getHeaderEl`:
true when the tag name contains a heading pattern as a substring. -/
def regexHeadingTest (t : String) : Bool :=
  ["H1", "H2", "H3", "H4", "H5", "H6",
   "h1", "h2", "h3", "h4", "h5", "h6"].any
    (fun p => strContainsSub p t)

/-- Code-unit lexicographic string comparison, as the JavaScript `<=`
operator compares strings. -/
def charListLe : List Char → List Char → Bool
  | [], _ => true
  | _ :: _, [] => false
  | c :: cs, d :: ds =>
    if c.val < d.val then true
    else if d.val < c.val then false
    else charListLe cs ds

def jsStrLe (a b : String) : Bool := charListLe a.data b.data

/-- Model of `getHeaderEl`: the first element child when it is a
heading. -/
def getHeaderEl (e : Elem) : Option Elem :=
  match e.children with
  | [] => none
  | first :: _ => if regexHeadingTest first.tag then some first else none

/-- Model of `querySelector(":has(section.footnotes)")` inside a header
element: some descendant of the header has a `section.footnotes`
descendant of its own. -/
def headerFootnoteHolder (h : Elem) : Bool :=
  elExistsF
    (fun y =>
      elExistsF (fun z => z.tag == "SECTION" && hasClassE "footnotes" z)
        y.children)
    h.children

/-- The stop condition of the `makeHeaderTree` sibling walk: the sibling
wraps a heading of equal-or-shallower level (tag-name comparison) or
marks a footnote/footer boundary. -/
def makeHeaderTreeBreak (hEl sibling : Elem) : Bool :=
  match getHeaderEl sibling with
  | none => false
  | some ch =>
    if jsStrLe ch.tag hEl.tag then true
    else if headerFootnoteHolder ch || hasClassE "mod-footer" ch then true
    else false

/-- The sibling walk of `makeHeaderTree`: splits the following siblings
into the prefix that is moved into the children container and the
remainder starting at the first break sibling. -/
def takeUntilBreak (hEl : Elem) : List Elem → List Elem × List Elem
  | [] => ([], [])
  | x :: xs =>
    if makeHeaderTreeBreak hEl x then ([], x :: xs)
    else
      let r := takeUntilBreak hEl xs
      (x :: r.1, r.2)

/-- A freshly created heading collapse indicator (its arrow SVG content
is not modelled). -/
def mkCollapseIndicator (i : Nat) : Elem :=
  .mk i "DIV"
    ["heading-collapse-indicator", "collapse-indicator", "collapse-icon"]
    [] [] "" false "" []

def prependChildE (c : Elem) : Elem → Elem
  | .mk i t cl a st v d tx cs => .mk i t cl a st v d tx (c :: cs)

def appendChildE (c : Elem) : Elem → Elem
  | .mk i t cl a st v d tx cs => .mk i t cl a st v d tx (cs ++ [c])

def replaceFirstChildE (newFirst : Elem) : Elem → Elem
  | .mk i t cl a st v d tx cs =>
    match cs with
    | [] => .mk i t cl a st v d tx cs
    | _ :: rest => .mk i t cl a st v d tx (newFirst :: rest)

/-- The `forEach` body run for one matched heading wrapper, given its
following siblings: add the wrapper class; fetch the header element
(skipping when absent or already processed); add the heading class and,
when no collapse indicator exists yet, prepend a fresh one; create the
children container and run the sibling walk into it. -/
def applyHeader (indicatorId containerId : Nat) (x : Elem) (xs : List Elem) :
    List Elem :=
  let x1 := addClassE "heading-wrapper" x
  match getHeaderEl x1 with
  | none => x1 :: xs
  | some hEl =>
    if hasClassE "heading" hEl then x1 :: xs
    else
      let h1 := addClassE "heading" hEl
      let h2 :=
        if elExistsF (fun d => hasClassE "heading-collapse-indicator" d)
            h1.children then h1
        else prependChildE (mkCollapseIndicator indicatorId) h1
      let x2 := replaceFirstChildE h2 x1
      let sp := takeUntilBreak h2 xs
      let container :=
        Elem.mk containerId "DIV" ["heading-children"] [] [] "" false "" sp.1
      (appendChildE container x2) :: sp.2

mutual
def procForest (i indId cid : Nat) : List Elem → List Elem
  | [] => []
  | x :: xs =>
    if x.eid == i then applyHeader indId cid x xs
    else procInto i indId cid x :: procForest i indId cid xs
def procInto (i indId cid : Nat) : Elem → Elem
  | .mk e t c a st v d tx cs => .mk e t c a st v d tx (procForest i indId cid cs)
end

/-- Match for `div:has(> :is(h1,...,h6):not([class^=block-language-]
*)):not(.markdown-sizer)`: a div (other than the sizer) with a direct
heading child, where the heading is not inside an element whose class
starts with the block-language prefix. -/
def headerDivMatch (inBlock : Bool) (e : Elem) : Bool :=
  e.tag == "DIV" && !(hasClassE "markdown-sizer" e)
    && e.children.any (fun c => regexHeadingTest c.tag)
    && !(inBlock || e.classes.any (fun cl => strStarts "block-language-" cl))

mutual
def collectIdsF (inBlock : Bool) : List Elem → List Nat
  | [] => []
  | x :: xs => collectIdsIn inBlock x ++ collectIdsF inBlock xs
def collectIdsIn (inBlock : Bool) : Elem → List Nat
  | .mk e t c a st v d tx cs =>
    let here :=
      if headerDivMatch inBlock (.mk e t c a st v d tx cs) then [e] else []
    here ++
      collectIdsF (inBlock || c.any (fun cl => strStarts "block-language-" cl)) cs
end

/-- Fold over the snapshot of matched wrapper ids (the live NodeList of
`querySelectorAll` is captured before any mutation), processing each in
document order; created indicator and container nodes are given fresh
ids from a counter. -/
def foldHeaders : List Nat → Nat → Elem → Elem
  | [], _, root => root
  | i :: rest, fresh, root =>
    let root1 := elSetChildren (procForest i fresh (fresh + 1) root.children) root
    foldHeaders rest (fresh + 2) root1

/-- CSS tag selector match for `:is(h1, h2, h3, h4, h5, h6)`. -/
def isHeadingTagName (t : String) : Bool :=
  ["H1", "H2", "H3", "H4", "H5", "H6"].contains t

mutual
def removeFirstF (p : Elem → Bool) : List Elem → List Elem × Bool
  | [] => ([], false)
  | x :: xs =>
    if p x then (xs, true)
    else
      let r := removeFirstIn p x
      if r.2 then (r.1 :: xs, true)
      else
        let r2 := removeFirstF p xs
        (r.1 :: r2.1, r2.2)
def removeFirstIn (p : Elem → Bool) : Elem → Elem × Bool
  | .mk e t c a st v d tx cs =>
    let r := removeFirstF p cs
    (.mk e t c a st v d tx r.1, r.2)
end

mutual
def removeIndF (divAnc : Bool) : List Elem → List Elem
  | [] => []
  | x :: xs => removeIndIn divAnc x :: removeIndF divAnc xs
def removeIndIn (divAnc : Bool) : Elem → Elem
  | .mk e t c a st v d tx cs =>
    let matched := divAnc && (t == "H1" || c.contains "inline-title")
    let cs1 := removeIndF (divAnc || t == "DIV") cs
    let cs2 :=
      if matched then
        (removeFirstF (fun y => hasClassE "heading-collapse-indicator" y) cs1).1
      else cs1
    .mk e t c a st v d tx cs2
end

/-- Model of `makeHeadingsTrees`: snapshot the matched heading wrapper
divs, process each in document order (wrapper class, heading class,
collapse indicator, children container, sibling walk), then add the
heading class to stray headings, remove the collapse indicators of
`div h1` and inline titles (the rendered root is a div, so every
heading below it has a div ancestor), and strip newlines inside heading
markup (text-level only, not modelled). -/
def makeHeadingsTrees (root : Elem) : Elem :=
  let rootBlock := root.classes.any (fun cl => strStarts "block-language-" cl)
  let ids := collectIdsF rootBlock root.children
  let r1 := foldHeaders ids 100 root
  let r2 := elMapDesc
    (fun e =>
      if isHeadingTagName e.tag && !(hasClassE "heading" e) then
        addClassE "heading" e
      else e) r1
  elSetChildren (removeIndF (r2.tag == "DIV") r2.children) r2

/-! ### postProcessHTML -/

/-- Step 1 of `postProcessHTML`: ensure the document root marker class
exists, locating the nearest content-view container when the root lacks
it; when none can be found an error is logged and the whole pipeline
returns with no modification (`none`). -/
def ensureDocumentClass (root : Elem) : Option Elem :=
  if hasClassE "obsidian-document" root then some root
  else if hasClassE "view-content" root || hasClassE "markdown-preview-view" root then
    some (addClassE "obsidian-document" root)
  else
    match elFindF
        (fun e => hasClassE "view-content" e || hasClassE "markdown-preview-view" e)
        root.children with
    | some vc =>
      some (elSetChildren
        (elMapF (fun e => if e.eid == vc.eid then addClassE "obsidian-document" e else e)
          root.children) root)
    | none => none

/-- Strip `.mod-header` / `.mod-footer` decoration (only when
`createDocumentContainer` is false). -/
def stripModHeaderFooter (root : Elem) : Elem :=
  elSetChildren
    (elFilterF (fun e => !(hasClassE "mod-header" e || hasClassE "mod-footer" e))
      root.children) root

/-- `p:has(div)` repair: the invalid paragraph is replaced by a fresh
span (its markup copied, its own classes and attributes dropped) with
explicit block display styling. -/
def pDivFix : Elem → Elem
  | .mk i t c a st v d tx cs =>
    if t == "P" && elExistsF (fun dch => dch.tag == "DIV") cs then
      .mk i "SPAN" [] []
        [("display", "block"), ("margin-block-start", "var(--p-spacing)"),
         ("margin-block-end", "var(--p-spacing)")] "" false tx cs
    else .mk i t c a st v d tx cs

/-- Serialize the live value of a text input into its `value` content
attribute, then clear the live value (marking the control dirty, as
assigning the value property does). -/
def inputValueFix : Elem → Elem
  | .mk i t c a st v d tx cs =>
    if t == "INPUT" && attrGet "type" a == some "text" then
      .mk i t c (attrSet "value" v a) st "" true tx cs
    else .mk i t c a st v d tx cs

/-- Serialize the live value of a textarea into its text content. -/
def textareaFix : Elem → Elem
  | .mk i t c a st v d tx cs =>
    if t == "TEXTAREA" then .mk i t c a st v d v cs
    else .mk i t c a st v d tx cs

/-- The resolved `href` property of an anchor (fragment-only and query
hrefs resolve against the document base URL). -/
def resolveHref (a : String) : String :=
  match a.data with
  | c :: _ =>
    if c == '#' || c == '?' then "app://obsidian.md/index.html" ++ a else a
  | [] => a

/-- Rewrite a tag link into a portable search-query href, preserving
the previous href attribute in `data-href`. -/
def tagHrefFix : Elem → Elem
  | .mk i t c a st v d tx cs =>
    if t == "A" && c.contains "tag" then
      let hrefProp := resolveHref ((attrGet "href" a).getD "")
      let parts := hrefProp.splitOn "#"
      let tagStr := (parts[1]?).getD (hrefProp.drop 1)
      let a1 := attrSet "data-href" ((attrGet "href" a).getD "") a
      let a2 := attrSet "href" ("?query=tag:" ++ tagStr) a1
      .mk i t c a2 st v d tx cs
    else .mk i t c a st v d tx cs

/-- Convert a hard-coded width attribute on media elements (and on a
`.media-embed` with a direct img/video child) into width and max-width
styles, clearing the attribute. -/
def widthFix : Elem → Elem
  | .mk i t c a st v d tx cs =>
    if t == "IMG" || t == "VIDEO" ||
        (c.contains "media-embed" &&
          cs.any (fun ch => ch.tag == "IMG" || ch.tag == "VIDEO")) then
      match attrGet "width" a with
      | some w =>
        let st1 := styleSet "width" (if w.trim != "" then w ++ "px" else "") st
        let st2 := styleSet "max-width" "100%" st1
        .mk i t c (attrRemove "width" a) st2 v d tx cs
      | none => .mk i t c a st v d tx cs
    else .mk i t c a st v d tx cs

def widthStep (root : Elem) : Elem := elMapDesc widthFix root

def isPdfEmbedSpan (e : Elem) : Bool :=
  e.tag == "SPAN" && hasClassE "internal-embed" e && hasClassE "pdf-embed" e

/-- The plain embed element substituted for a pdf viewer placeholder. -/
def mkPdfReplacement (pdf : Elem) : Elem :=
  let wv := (styleGet "width" pdf.styles).getD ""
  let hv := (styleGet "height" pdf.styles).getD ""
  .mk pdf.eid "EMBED" [] [("src", (attrGet "src" pdf.attrs).getD "")]
    [("width", if wv == "" then "100%" else wv), ("max-width", "100%"),
     ("height", if hv == "" then "800px" else hv)] "" false "" []

/-- Replace a pdf viewer placeholder: the container (the grandparent of
the pdf span) is emptied and the plain embed appended. -/
def pdfFix : Elem → Elem
  | .mk i t c a st v d tx cs =>
    match cs.findSome? (fun ch => ch.children.find? isPdfEmbedSpan) with
    | some pdf => .mk i t c a st v d tx [mkPdfReplacement pdf]
    | none => .mk i t c a st v d tx cs

/-- Remove foreign-plugin decoration (`div[class^=mk-]`). -/
def removeMkStep (root : Elem) : Elem :=
  elSetChildren
    (elFilterF
      (fun e => !(e.tag == "DIV" && e.classes.any (fun cl => strStarts "mk-" cl)))
      root.children) root

/-- Relocate the front-matter block immediately before the sizer
element and discard its original wrapper. -/
def frontmatterStep (root : Elem) : Elem :=
  match elFindF (fun e => hasClassE "frontmatter" e) root.children with
  | none => root
  | some fm =>
    let parentId := elParentIdF root.eid fm.eid root.children
    let r1 := elSetChildren (elRemoveF fm.eid root.children) root
    let r2 :=
      match elFindF (fun e => hasClassE "markdown-sizer" e) r1.children with
      | some sz => elSetChildren (elInsertBeforeF sz.eid fm r1.children) r1
      | none => r1
    match parentId with
    | some pid =>
      if pid == root.eid then r2
      else elSetChildren (elRemoveF pid r2.children) r2
    | none => r2

def iframeLazyFix : Elem → Elem
  | .mk i t c a st v d tx cs =>
    if t == "IFRAME" then .mk i t c (attrSet "loading" "lazy" a) st v d tx cs
    else .mk i t c a st v d tx cs

/-- A freshly created list collapse indicator. -/
def mkListIndicator : Elem :=
  .mk 0 "DIV" ["list-collapse-indicator", "collapse-indicator", "collapse-icon"]
    [] [] "" false "" []

mutual
def listCollapseF : List Elem → List Elem
  | [] => []
  | x :: xs => listCollapseIn x :: listCollapseF xs
def listCollapseIn : Elem → Elem
  | .mk i t c a st v d tx cs =>
    let cs1 := listCollapseF cs
    if t == "LI" && elExistsF (fun dch => dch.tag == "UL" || dch.tag == "OL") cs then
      if elExistsF (fun dch => hasClassE "collapse-icon" dch) cs then
        .mk i t c a st v d tx cs1
      else .mk i t c a st v d tx (mkListIndicator :: cs1)
    else .mk i t c a st v d tx cs1
end

/-- Add a collapse indicator to list items containing nested lists
(unless one already exists in the item, checked against the state at
the time the snapshot is traversed in document order). -/
def listCollapseStep (root : Elem) : Elem :=
  elSetChildren (listCollapseF root.children) root

mutual
def tocF (mdInline : String → String) (inToc parentIsLi : Bool) :
    List Elem → List Elem
  | [] => []
  | x :: xs =>
    tocIn mdInline inToc parentIsLi x :: tocF mdInline inToc parentIsLi xs
def tocIn (mdInline : String → String) (inToc parentIsLi : Bool) : Elem → Elem
  | .mk i t c a st v d tx cs =>
    let isToc := c.contains "block-language-toc" && c.contains "dynamic-toc"
    let tx1 := if inToc && parentIsLi && t == "A" then mdInline tx else tx
    .mk i t c a st v d tx1 (tocF mdInline (inToc || isToc) (t == "LI") cs)
end

/-- Re-render the labels of a dynamic table of contents through the
minimal inline-markdown renderer (supplied as `mdInline`, since the
renderer is an external collaborator). -/
def tocStep (mdInline : String → String) (root : Elem) : Elem :=
  elSetChildren (tocF mdInline false false root.children) root

/-- Model of `postProcessHTML`: the steps in source order, operating on
the rendered element tree.  `mdInline` abstracts the external
inline-markdown renderer; `createDocumentContainer` is the option read
by the header/footer stripping step. -/
def postProcessHTML (mdInline : String → String)
    (createDocumentContainer : Bool) (root : Elem) : Elem :=
  match ensureDocumentClass root with
  | none => root
  | some r0 =>
    let r1 := if createDocumentContainer = false then stripModHeaderFooter r0 else r0
    let r2 := elMapDesc pDivFix r1
    let r3 := elMapDesc inputValueFix r2
    let r4 := elMapDesc textareaFix r3
    let r5 := elMapDesc tagHrefFix r4
    let r6 := widthStep r5
    let r7 := elMapDesc pdfFix r6
    let r8 := removeMkStep r7
    let r9 := frontmatterStep r8
    let r10 := elMapDesc iframeLazyFix r9
    let r11 := listCollapseStep r10
    tocStep mdInline r11

/-! ### Concrete fixtures -/

/-- A healthy active batch session: leaf attached, progress container
present, no error, not cancelled. -/
def activeState : RenderState :=
  { renderLeaf := some true, electronWindow := true, errorInBatch := false,
    cancelled := false, batchStarted := true, loadingContainer := true,
    fileListContainer := false, logShowing := false, settingsLoaded := false,
    logLevel := "all", fullLog := [], widgetLog := [], progressReports := [],
    detachCount := 0 }

/-- An active batch session in which cancellation has been requested. -/
def cancelledActiveState : RenderState :=
  { activeState with cancelled := true }

/-- An active batch session in which an error has been recorded. -/
def erroredActiveState : RenderState :=
  { activeState with errorInBatch := true }

/-- Decidable conjunction of all four per-section outcomes being
in time. -/
def sectionAllOk (e : SectionEnv) : Bool :=
  e.renderedInTime && e.computedInTime &&
    e.transclusionsPopulated && e.pluginsPopulated

/-- The first child of an element (or the element itself when it has
none). -/
def elHead (e : Elem) : Elem :=
  match e.children with
  | c :: _ => c
  | [] => e

/-- A section block div wrapping a single heading element. -/
def hdiv (i : Nat) (htag : String) (hid : Nat) : Elem :=
  .mk i "DIV" [] [] [] "" false "" [.mk hid htag [] [] [] "" false "" []]

/-- A section block div wrapping a single paragraph element. -/
def pdiv (i : Nat) (pid : Nat) : Elem :=
  .mk i "DIV" [] [] [] "" false "" [.mk pid "P" [] [] [] "" false "" []]

/-- The flat heading sequence [h1, p, h2, p, h3, p, h2, p] of the
heading-tree scenario, inside the rendered document container and
sizer. -/
def c9input : Elem :=
  .mk 1 "DIV" ["obsidian-document"] [] [] "" false ""
    [.mk 2 "DIV" ["markdown-sizer"] [] [] "" false ""
      [hdiv 10 "H1" 11, pdiv 12 13,
       hdiv 20 "H2" 21, pdiv 22 23,
       hdiv 30 "H3" 31, pdiv 32 33,
       hdiv 40 "H2" 41, pdiv 42 43]]

/-- The expected heading tree: the h3 paragraph nests under h3, h3 and
its paragraph nest under the first h2, the second h2 and its paragraph
stay siblings of the first h2 inside the h1 children container, and
everything nests under h1 (whose collapse indicator is removed at the
end). -/
def c9expected : Elem :=
  .mk 1 "DIV" ["obsidian-document"] [] [] "" false ""
    [.mk 2 "DIV" ["markdown-sizer"] [] [] "" false ""
      [.mk 10 "DIV" ["heading-wrapper"] [] [] "" false ""
        [.mk 11 "H1" ["heading"] [] [] "" false "" [],
         .mk 101 "DIV" ["heading-children"] [] [] "" false ""
           [pdiv 12 13,
            .mk 20 "DIV" ["heading-wrapper"] [] [] "" false ""
              [.mk 21 "H2" ["heading"] [] [] "" false ""
                 [mkCollapseIndicator 102],
               .mk 103 "DIV" ["heading-children"] [] [] "" false ""
                 [pdiv 22 23,
                  .mk 30 "DIV" ["heading-wrapper"] [] [] "" false ""
                    [.mk 31 "H3" ["heading"] [] [] "" false ""
                       [mkCollapseIndicator 104],
                     .mk 105 "DIV" ["heading-children"] [] [] "" false ""
                       [pdiv 32 33]]]],
            .mk 40 "DIV" ["heading-wrapper"] [] [] "" false ""
              [.mk 41 "H2" ["heading"] [] [] "" false ""
                 [mkCollapseIndicator 106],
               .mk 107 "DIV" ["heading-children"] [] [] "" false ""
                 [pdiv 42 43]]]]]]

/-- A rendered document whose only content is a text input carrying a
live (not yet serialized) value. -/
def c8input : Elem :=
  .mk 1 "DIV" ["obsidian-document"] [] [] "" false ""
    [.mk 2 "INPUT" [] [("type", "text")] [] "hello" false "" []]

/-- A canvas node embedding the document at path `a.md` with an embed
element and an available child preview. -/
def c1node : CanvasNode :=
  { file := some "a.md", hasEmbedEl := true, hasChildPreview := true,
    url := none }

deriving instance DecidableEq for Except

/-- A begin-batch environment in which everything succeeds. -/
def goodBeginEnv : BeginEnv :=
  { leafAttaches := true, cancelDuringWait := false, detachThrows := false,
    electronWindowOk := true, displayProgress := true }

/-- A begin-batch environment in which the leaf never attaches to a
visible parent within the polling budget. -/
def noAttachEnv : BeginEnv :=
  { leafAttaches := false, cancelDuringWait := false, detachThrows := false,
    electronWindowOk := true, displayProgress := true }

/-- A document whose render goes through cleanly. -/
def okDocEnv : DocEnv :=
  { beginEnv := goodBeginEnv, loadThrows := false, rendererResult := true,
    cancelDuringRender := false }

/-- A document whose load into the render surface throws. -/
def loadFailDocEnv : DocEnv :=
  { beginEnv := goodBeginEnv, loadThrows := true, rendererResult := true,
    cancelDuringRender := false }

/-- A document whose render observes cancellation. -/
def cancelDocEnv : DocEnv :=
  { beginEnv := goodBeginEnv, loadThrows := false, rendererResult := true,
    cancelDuringRender := true }

/-- A section whose asynchronous stages all complete in time. -/
def okSection : SectionEnv :=
  { renderedInTime := true, computedInTime := true,
    transclusionsPopulated := true, pluginsPopulated := true }

/-- A section whose rendered flag never flips within 2000ms. -/
def slowRenderSection : SectionEnv :=
  { renderedInTime := false, computedInTime := true,
    transclusionsPopulated := true, pluginsPopulated := true }

/-- A section whose computed flag never flips within 2000ms. -/
def slowComputeSection : SectionEnv :=
  { renderedInTime := true, computedInTime := false,
    transclusionsPopulated := true, pluginsPopulated := true }

/-- A section whose nested transclusions fail to populate within
500ms. -/
def slowTransclusionSection : SectionEnv :=
  { renderedInTime := true, computedInTime := true,
    transclusionsPopulated := false, pluginsPopulated := true }

/-! ### Theorems: PollingWaiter -/

theorem waitUntilGo_true (condition : Nat → Bool) (timeout interval : Nat)
    (hi : 0 < interval) (k : Nat) (hk : condition k = true)
    (hkt : k * interval ≤ timeout) :
    ∀ fuel timer tick, timeout < timer + fuel → timer = (tick - 1) * interval →
      1 ≤ tick → tick ≤ k →
      (waitUntilGo condition timeout interval fuel timer tick).1 = true := by
  intro fuel
  induction fuel with
  | zero =>
    intro timer tick h1 h2 h3 h4
    exfalso
    have e1 : (tick - 1) * interval = tick * interval - interval := by
      rw [Nat.sub_mul, Nat.one_mul]
    have e2 : tick * interval ≤ k * interval :=
      Nat.mul_le_mul h4 (le_refl interval)
    have e3 : interval ≤ k * interval := by
      calc interval = 1 * interval := (Nat.one_mul _).symm
        _ ≤ k * interval := Nat.mul_le_mul (by omega) (le_refl interval)
    omega
  | succ fuel ih =>
    intro timer tick h1 h2 h3 h4
    by_cases hc : condition tick = true
    · simp [waitUntilGo, hc]
    · have hcb : condition tick = false := by
        cases hx : condition tick with
        | true => exact absurd hx hc
        | false => rfl
      have htk : tick < k := by
        rcases Nat.lt_or_ge tick k with h | h
        · exact h
        · exfalso
          have he : tick = k := le_antisymm h4 h
          rw [he, hk] at hcb
          exact Bool.noConfusion hcb
      have e1 : (tick - 1) * interval = tick * interval - interval := by
        rw [Nat.sub_mul, Nat.one_mul]
      have e2 : tick * interval ≤ (k - 1) * interval :=
        Nat.mul_le_mul (by omega) (le_refl interval)
      have e3 : (k - 1) * interval = k * interval - interval := by
        rw [Nat.sub_mul, Nat.one_mul]
      have e4 : interval ≤ k * interval := by
        calc interval = 1 * interval := (Nat.one_mul _).symm
          _ ≤ k * interval := Nat.mul_le_mul (by omega) (le_refl interval)
      have e5 : interval ≤ tick * interval := by
        calc interval = 1 * interval := (Nat.one_mul _).symm
          _ ≤ tick * interval := Nat.mul_le_mul h3 (le_refl interval)
      have hnex : ¬ (timeout ≤ timer + interval) := by omega
      have step :
          waitUntilGo condition timeout interval (fuel + 1) timer tick =
            waitUntilGo condition timeout interval fuel (timer + interval) (tick + 1) := by
        simp [waitUntilGo, hcb, hnex]
      rw [step]
      have ht : tick + 1 - 1 = tick := by omega
      exact ih (timer + interval) (tick + 1) (by omega) (by rw [ht]; omega)
        (by omega) (by omega)

theorem waitUntilGo_false (condition : Nat → Bool) (timeout interval : Nat)
    (hi : 0 < interval) (hall : ∀ k, condition k = false) :
    ∀ fuel timer tick, timeout < timer + fuel → timer = (tick - 1) * interval →
      1 ≤ tick → timer ≤ timeout →
      (waitUntilGo condition timeout interval fuel timer tick).1 = false ∧
      timeout ≤ (waitUntilGo condition timeout interval fuel timer tick).2 * interval ∧
      (waitUntilGo condition timeout interval fuel timer tick).2 * interval ≤
        timeout + interval := by
  intro fuel
  induction fuel with
  | zero =>
    intro timer tick h1 h2 h3 h4
    omega
  | succ fuel ih =>
    intro timer tick h1 h2 h3 h4
    have hcb : condition tick = false := hall tick
    have e1 : (tick - 1) * interval = tick * interval - interval := by
      rw [Nat.sub_mul, Nat.one_mul]
    have e5 : interval ≤ tick * interval := by
      calc interval = 1 * interval := (Nat.one_mul _).symm
        _ ≤ tick * interval := Nat.mul_le_mul h3 (le_refl interval)
    by_cases hex : timeout ≤ timer + interval
    · have step :
          waitUntilGo condition timeout interval (fuel + 1) timer tick =
            (false, tick) := by
        simp [waitUntilGo, hcb, hex]
      rw [step]
      have hb2 : timeout ≤ tick * interval := by omega
      have hb3 : tick * interval ≤ timeout + interval := by omega
      exact ⟨rfl, hb2, hb3⟩
    · have step :
          waitUntilGo condition timeout interval (fuel + 1) timer tick =
            waitUntilGo condition timeout interval fuel (timer + interval) (tick + 1) := by
        simp [waitUntilGo, hcb, hex]
      rw [step]
      have ht : tick + 1 - 1 = tick := by omega
      exact ih (timer + interval) (tick + 1) (by omega) (by rw [ht]; omega)
        (by omega) (by omega)

/-- C5: the polling waiter resolves `(true, 0)` immediately when the
predicate is already true at call time, without scheduling any timer;
it resolves `true` whenever the predicate becomes true at a poll whose
elapsed time is within the timeout; and for a predicate that never
becomes true it resolves `false` (never throwing or rejecting, the
model being a total function) at an elapsed time between `timeout` and
`timeout + interval` (one interval of tolerance). -/
theorem waitUntil_polling_contract (condition : Nat → Bool)
    (timeout interval : Nat) (hi :0 < interval) :
    (condition 0 = true → waitUntil condition timeout interval = (true, 0))
    ∧ (∀ k, condition k = true → k * interval ≤ timeout →
        (waitUntil condition timeout interval).1 = true)
    ∧ ((∀ k, condition k = false) →
        (waitUntil condition timeout interval).1 = false
        ∧ timeout ≤ (waitUntil condition timeout interval).2 * interval
        ∧ (waitUntil condition timeout interval).2 * interval ≤ timeout + interval) := by
  refine ⟨?_, ?_, ?_⟩
  · intro h0
    simp [waitUntil, h0]
  · intro k hk hkt
    by_cases h0 : condition 0 = true
    · simp [waitUntil, h0]
    · have h0b : condition 0 = false := by
        cases hx : condition 0 with
        | true => exact absurd hx h0
        | false => rfl
      have hk1 : 1 ≤ k := by
        rcases Nat.eq_zero_or_pos k with h | h
        · rw [h, h0b] at hk; exact Bool.noConfusion hk
        · exact h
      have := waitUntilGo_true condition timeout interval hi k hk hkt
        (timeout + 1) 0 1 (by omega) (by simp) (by omega) hk1
      simpa [waitUntil, h0b] using this
  · intro hall
    have h0b : condition 0 = false := hall 0
    have := waitUntilGo_false condition timeout interval hi hall
      (timeout + 1) 0 1 (by omega) (by simp) (by omega) (by omega)
    simpa [waitUntil, h0b] using this

/-- Closed instance of the polling contract: a predicate true from the
second poll on resolves true within budget, and a never-true predicate
resolves false. -/
theorem waitUntil_polling_contract_w :
    (waitUntil (fun k => decide (2 ≤ k)) 5 2).1 = true ∧
    (waitUntil (fun _ => false) 5 2).1 = false :=
  ⟨(waitUntil_polling_contract (fun k => decide (2 ≤ k)) 5 2 (by decide)).2.1 2
      (by decide) (by decide),
   ((waitUntil_polling_contract (fun _ => false) 5 2 (by decide)).2.2
      (fun _ => rfl)).1⟩

/-! ### Theorems: session state machine -/

theorem appendLogEl_frame (entry : LogEntry) (s : RenderState) :
    (appendLogEl entry s).renderLeaf = s.renderLeaf ∧
    (appendLogEl entry s).electronWindow = s.electronWindow ∧
    (appendLogEl entry s).errorInBatch = s.errorInBatch ∧
    (appendLogEl entry s).cancelled = s.cancelled ∧
    (appendLogEl entry s).batchStarted = s.batchStarted ∧
    (appendLogEl entry s).loadingContainer = s.loadingContainer ∧
    (appendLogEl entry s).fullLog = s.fullLog ∧
    (appendLogEl entry s).progressReports = s.progressReports ∧
    (appendLogEl entry s).detachCount = s.detachCount := by
  unfold appendLogEl
  split
  · simp
  · split <;> simp

theorem reportInfo_frame (t m : String) (s : RenderState) :
    (reportInfo t m s).renderLeaf = s.renderLeaf ∧
    (reportInfo t m s).electronWindow = s.electronWindow ∧
    (reportInfo t m s).errorInBatch = s.errorInBatch ∧
    (reportInfo t m s).cancelled = s.cancelled ∧
    (reportInfo t m s).batchStarted = s.batchStarted ∧
    (reportInfo t m s).loadingContainer = s.loadingContainer ∧
    (reportInfo t m s).fullLog = s.fullLog ∧
    (reportInfo t m s).progressReports = s.progressReports ∧
    (reportInfo t m s).detachCount = s.detachCount := by
  unfold reportInfo
  split
  · simp
  · split
    · simp
    · exact appendLogEl_frame _ s

theorem reportWarning_frame (t m : String) (s : RenderState) :
    (reportWarning t m s).renderLeaf = s.renderLeaf ∧
    (reportWarning t m s).electronWindow = s.electronWindow ∧
    (reportWarning t m s).errorInBatch = s.errorInBatch ∧
    (reportWarning t m s).cancelled = s.cancelled ∧
    (reportWarning t m s).batchStarted = s.batchStarted ∧
    (reportWarning t m s).loadingContainer = s.loadingContainer ∧
    (reportWarning t m s).fullLog = s.fullLog ∧
    (reportWarning t m s).progressReports = s.progressReports ∧
    (reportWarning t m s).detachCount = s.detachCount := by
  unfold reportWarning
  split
  · simp
  · split
    · simp
    · exact appendLogEl_frame _ s

theorem exportLogLog_frame (t m : String) (s : RenderState) :
    (exportLogLog t m s).renderLeaf = s.renderLeaf ∧
    (exportLogLog t m s).electronWindow = s.electronWindow ∧
    (exportLogLog t m s).errorInBatch = s.errorInBatch ∧
    (exportLogLog t m s).cancelled = s.cancelled ∧
    (exportLogLog t m s).batchStarted = s.batchStarted ∧
    (exportLogLog t m s).loadingContainer = s.loadingContainer ∧
    (exportLogLog t m s).fullLog = s.fullLog ++ [⟨LogLevel.info, t, m⟩] ∧
    (exportLogLog t m s).progressReports = s.progressReports ∧
    (exportLogLog t m s).detachCount = s.detachCount := by
  unfold exportLogLog
  dsimp only
  split
  · simp
  · have h := reportInfo_frame t m
      { s with fullLog := s.fullLog ++ [⟨LogLevel.info, t, m⟩] }
    simpa using h

theorem exportLogWarning_frame (t m : String) (s : RenderState) :
    (exportLogWarning t m s).renderLeaf = s.renderLeaf ∧
    (exportLogWarning t m s).electronWindow = s.electronWindow ∧
    (exportLogWarning t m s).errorInBatch = s.errorInBatch ∧
    (exportLogWarning t m s).cancelled = s.cancelled ∧
    (exportLogWarning t m s).batchStarted = s.batchStarted ∧
    (exportLogWarning t m s).loadingContainer = s.loadingContainer ∧
    (exportLogWarning t m s).fullLog = s.fullLog ++ [⟨LogLevel.warning, t, m⟩] ∧
    (exportLogWarning t m s).progressReports = s.progressReports ∧
    (exportLogWarning t m s).detachCount = s.detachCount := by
  unfold exportLogWarning
  dsimp only
  split
  · simp
  · have h := reportWarning_frame t m
      { s with fullLog := s.fullLog ++ [⟨LogLevel.warning, t, m⟩] }
    simpa using h

theorem reportError_nonfatal_frame (t m : String) (s : RenderState) :
    (reportError t m false s).renderLeaf = s.renderLeaf ∧
    (reportError t m false s).electronWindow = s.electronWindow ∧
    (reportError t m false s).cancelled = s.cancelled ∧
    (reportError t m false s).batchStarted = s.batchStarted ∧
    (reportError t m false s).loadingContainer = s.loadingContainer ∧
    (reportError t m false s).fullLog = s.fullLog ∧
    (reportError t m false s).progressReports = s.progressReports ∧
    (reportError t m false s).detachCount = s.detachCount := by
  unfold reportError
  split
  · simp
  · dsimp only
    split
    · simp
    · obtain ⟨h1, h2, h3, h4, h5, h6, h7, h8, h9⟩ :=
        appendLogEl_frame (⟨LogLevel.error, t, m⟩ : LogEntry)
          { s with errorInBatch := true }
      exact ⟨h1, h2, h4, h5, h6, h7, h8, h9⟩

theorem exportLogError_nonfatal_frame (t m : String) (s : RenderState) :
    (exportLogError t m false s).renderLeaf = s.renderLeaf ∧
    (exportLogError t m false s).electronWindow = s.electronWindow ∧
    (exportLogError t m false s).cancelled = s.cancelled ∧
    (exportLogError t m false s).batchStarted = s.batchStarted ∧
    (exportLogError t m false s).loadingContainer = s.loadingContainer ∧
    (exportLogError t m false s).fullLog = s.fullLog ++ [⟨LogLevel.error, t, m⟩] ∧
    (exportLogError t m false s).progressReports = s.progressReports ∧
    (exportLogError t m false s).detachCount = s.detachCount := by
  unfold exportLogError
  dsimp only
  split
  · simp
  · have h := reportError_nonfatal_frame t m
      { s with fullLog := s.fullLog ++ [⟨LogLevel.error, t, m⟩] }
    simpa using h

theorem reportProgress_frame (m : String) (s : RenderState) :
    (reportProgress m s).renderLeaf = s.renderLeaf ∧
    (reportProgress m s).electronWindow = s.electronWindow ∧
    (reportProgress m s).errorInBatch = s.errorInBatch ∧
    (reportProgress m s).cancelled = s.cancelled ∧
    (reportProgress m s).batchStarted = s.batchStarted ∧
    (reportProgress m s).loadingContainer = s.loadingContainer ∧
    (reportProgress m s).fullLog = s.fullLog ∧
    (reportProgress m s).detachCount = s.detachCount := by
  unfold reportProgress
  split
  · simp
  · split
    · simp
    · split <;> simp

theorem reportProgress_active (m : String) (s : RenderState)
    (hb : s.batchStarted = true) (hl : s.renderLeaf = some true)
    (hc : s.loadingContainer = true) :
    reportProgress m s = { s with progressReports := s.progressReports ++ [m] } := by
  unfold reportProgress
  simp [hb, hl, hc]

theorem endBatch_inactive (s : RenderState) (h : s.batchStarted = false) :
    endBatch s = s := by
  unfold endBatch
  simp [h]

theorem endBatch_batchStarted (s : RenderState) :
    (endBatch s).batchStarted = false := by
  unfold endBatch
  split
  · assumption
  · simp

theorem endBatch_clears (s : RenderState) (h : s.batchStarted = true) :
    (endBatch s).renderLeaf = none ∧ (endBatch s).electronWindow = false ∧
    (endBatch s).loadingContainer = false := by
  unfold endBatch
  simp [h]

theorem endBatch_cancelled (s : RenderState) :
    (endBatch s).cancelled = s.cancelled := by
  unfold endBatch
  split
  · rfl
  · dsimp only
    cases hrl : s.renderLeaf with
    | none => simp
    | some b =>
      by_cases he : s.errorInBatch = false
      · have hf := exportLogLog_frame "" "Closing render window" s
        simp [he, hf.2.2.2.1]
      · have hf := exportLogWarning_frame "" "Error in batch, leaving render window open" s
        have hp := reportProgress_frame "Completed with errors"
          (exportLogWarning "" "Error in batch, leaving render window open" s)
        simp [he, hp.2.2.2.1, hf.2.2.2.1]

theorem endBatch_renderLeaf_none (s : RenderState) (h : s.renderLeaf = none) :
    (endBatch s).renderLeaf = none := by
  unfold endBatch
  split
  · exact h
  · simp

theorem endBatch_detach_of_none (s : RenderState) (h : s.renderLeaf = none) :
    (endBatch s).detachCount = s.detachCount := by
  unfold endBatch
  split
  · rfl
  · simp [h]

theorem endBatch_detach_noerror (s : RenderState) (b : Bool)
    (hb : s.batchStarted = true) (hl : s.renderLeaf = some b)
    (he : s.errorInBatch = false) :
    (endBatch s).detachCount = s.detachCount + 1 := by
  have hf := exportLogLog_frame "" "Closing render window" s
  unfold endBatch
  simp [hb, hl, he, hf.2.2.2.2.2.2.2.2]

theorem endBatch_error_branch (s : RenderState)
    (hb : s.batchStarted = true) (hl : s.renderLeaf = some true)
    (he : s.errorInBatch = true) (hc : s.loadingContainer = true) :
    (endBatch s).detachCount = s.detachCount ∧
    (endBatch s).progressReports = s.progressReports ++ ["Completed with errors"] := by
  have hf := exportLogWarning_frame "" "Error in batch, leaving render window open" s
  have hb2 : (exportLogWarning "" "Error in batch, leaving render window open" s).batchStarted = true := by
    rw [hf.2.2.2.2.1, hb]
  have hl2 : (exportLogWarning "" "Error in batch, leaving render window open" s).renderLeaf = some true := by
    rw [hf.1, hl]
  have hc2 : (exportLogWarning "" "Error in batch, leaving render window open" s).loadingContainer = true := by
    rw [hf.2.2.2.2.2.1, hc]
  have hrp := reportProgress_active "Completed with errors" _ hb2 hl2 hc2
  unfold endBatch
  simp [hb, hl, he, hrp, hf.2.2.2.2.2.2.2.1, hf.2.2.2.2.2.2.2.2]

theorem checkCancelled_true_iff (s : RenderState) :
    (checkCancelled s).1 = true ↔ (s.cancelled = true ∨ s.renderLeaf = none) := by
  unfold checkCancelled
  split
  · next hcond => simp [hcond]
  · next hcond => simp [hcond]

theorem checkCancelled_false_state (s : RenderState)
    (h : (checkCancelled s).1 = false) : (checkCancelled s).2 = s := by
  unfold checkCancelled at h ⊢
  by_cases hcond : s.cancelled = true ∨ s.renderLeaf = none
  · rw [if_pos hcond] at h
    simp at h
  · rw [if_neg hcond]

theorem checkCancelled_true_state (s : RenderState)
    (h : (checkCancelled s).1 = true) :
    (checkCancelled s).2 = endBatch (exportLogLog "" "cancelled" s) := by
  unfold checkCancelled at h ⊢
  by_cases hcond : s.cancelled = true ∨ s.renderLeaf = none
  · rw [if_pos hcond]
  · rw [if_neg hcond] at h
    simp at h

theorem reportError_sets_error (t m : String) (fatal : Bool) (s : RenderState)
    (h : s.batchStarted = true) : (reportError t m fatal s).errorInBatch = true := by
  unfold reportError
  rw [if_neg (by simp [h])]
  dsimp only
  split
  · simp
  · have hf := appendLogEl_frame (⟨LogLevel.error, t, m⟩ : LogEntry)
      { s with errorInBatch := true }
    split
    · simpa using hf.2.2.1
    · simpa using hf.2.2.1

/-- C4: `checkCancelled` returns true exactly when the cancel flag is
set or the leaf handle is absent; a false result has no side effect;
a true result forces `endBatch` (leaving the session inactive); and
once it has returned true, every subsequent call returns true again,
further `endBatch` calls are exact no-ops, and the surface is not
released a second time (the detach count is stable), so repeated
cancellation checks never throw and never double-release. -/
theorem checkCancelled_contract (s : RenderState) :
    ((checkCancelled s).1 = true ↔ (s.cancelled = true ∨ s.renderLeaf = none))
    ∧ ((checkCancelled s).1 = false → (checkCancelled s).2 = s)
    ∧ ((checkCancelled s).1 = true → (checkCancelled s).2.batchStarted = false)
    ∧ ((checkCancelled s).1 = true →
        (checkCancelled (checkCancelled s).2).1 = true
        ∧ endBatch (checkCancelled s).2 = (checkCancelled s).2
        ∧ (checkCancelled (checkCancelled s).2).2.detachCount
            = (checkCancelled s).2.detachCount) := by
  refine ⟨checkCancelled_true_iff s, checkCancelled_false_state s, ?_, ?_⟩
  · intro h
    rw [checkCancelled_true_state s h]
    exact endBatch_batchStarted _
  · intro h
    have hst := checkCancelled_true_state s h
    have hdisj := (checkCancelled_true_iff s).1 h
    have hfL := exportLogLog_frame "" "cancelled" s
    have hs'b : (checkCancelled s).2.batchStarted = false := by
      rw [hst]; exact endBatch_batchStarted _
    have hs'cond : (checkCancelled s).2.cancelled = true ∨
        (checkCancelled s).2.renderLeaf = none := by
      by_cases hb : s.batchStarted = true
      · right
        rw [hst]
        exact (endBatch_clears _ (by rw [hfL.2.2.2.2.1]; exact hb)).1
      · have hbf : s.batchStarted = false := by
          cases hx : s.batchStarted with
          | true => exact absurd hx hb
          | false => rfl
        have hLb : (exportLogLog "" "cancelled" s).batchStarted = false := by
          rw [hfL.2.2.2.2.1]; exact hbf
        have hfix : (checkCancelled s).2 = exportLogLog "" "cancelled" s := by
          rw [hst]; exact endBatch_inactive _ hLb
        rw [hfix]
        rcases hdisj with hc | hl
        · left; rw [hfL.2.2.2.1]; exact hc
        · right; rw [hfL.1]; exact hl
    have hcc2 : (checkCancelled (checkCancelled s).2).1 = true := by
      rw [checkCancelled_true_iff]; exact hs'cond
    refine ⟨hcc2, endBatch_inactive _ hs'b, ?_⟩
    have hst2 := checkCancelled_true_state _ hcc2
    rw [hst2]
    have hfL2 := exportLogLog_frame "" "cancelled" (checkCancelled s).2
    have hL2b : (exportLogLog "" "cancelled" (checkCancelled s).2).batchStarted = false := by
      rw [hfL2.2.2.2.2.1]; exact hs'b
    rw [endBatch_inactive _ hL2b]
    exact hfL2.2.2.2.2.2.2.2.2

/-- Closed instance of the cancellation contract on a concrete
cancelled batch and a concrete healthy batch. -/
theorem checkCancelled_contract_w :
    (checkCancelled cancelledActiveState).2.batchStarted = false ∧
    (checkCancelled (checkCancelled cancelledActiveState).2).1 = true ∧
    endBatch (checkCancelled cancelledActiveState).2 =
      (checkCancelled cancelledActiveState).2 ∧
    (checkCancelled activeState).2 = activeState :=
  ⟨(checkCancelled_contract cancelledActiveState).2.2.1 (by decide),
   ((checkCancelled_contract cancelledActiveState).2.2.2 (by decide)).1,
   ((checkCancelled_contract cancelledActiveState).2.2.2 (by decide)).2.1,
   (checkCancelled_contract activeState).2.1 (by decide)⟩

/-- C7: `endBatch` is a no-op when no batch is started; otherwise it
always clears the session to inactive (batch flag, leaf handle and
electron window handle); with a surface handle present it detaches the
surface when no error occurred in the batch, and with an error it
leaves the surface open (no detach) and reports the terminal
Completed-with-errors progress state instead. -/
theorem endBatch_session_contract (s : RenderState) (b : Bool) :
    (s.batchStarted = false → endBatch s = s)
    ∧ (s.batchStarted = true →
        (endBatch s).batchStarted = false ∧ (endBatch s).renderLeaf = none ∧
        (endBatch s).electronWindow = false)
    ∧ (s.batchStarted = true → s.renderLeaf = some b → s.errorInBatch = false →
        (endBatch s).detachCount = s.detachCount + 1)
    ∧ (s.batchStarted = true → s.renderLeaf = some true → s.errorInBatch = true →
        s.loadingContainer = true →
        (endBatch s).detachCount = s.detachCount ∧
        (endBatch s).progressReports =
          s.progressReports ++ ["Completed with errors"]) :=
  ⟨fun h => endBatch_inactive s h,
   fun h => ⟨endBatch_batchStarted s, (endBatch_clears s h).1,
     (endBatch_clears s h).2.1⟩,
   fun hb hl he => endBatch_detach_noerror s b hb hl he,
   fun hb hl he hc => endBatch_error_branch s hb hl he hc⟩

/-- Closed instance of the endBatch contract on concrete inactive,
healthy and errored sessions. -/
theorem endBatch_session_contract_w :
    endBatch inactiveState = inactiveState ∧
    (endBatch activeState).batchStarted = false ∧
    (endBatch activeState).detachCount = activeState.detachCount + 1 ∧
    (endBatch erroredActiveState).detachCount = erroredActiveState.detachCount ∧
    (endBatch erroredActiveState).progressReports =
      erroredActiveState.progressReports ++ ["Completed with errors"] :=
  ⟨(endBatch_session_contract inactiveState true).1 (by decide),
   ((endBatch_session_contract activeState true).2.1 (by decide)).1,
   (endBatch_session_contract activeState true).2.2.1 (by decide) (by decide)
     (by decide),
   ((endBatch_session_contract erroredActiveState true).2.2.2 (by decide)
     (by decide) (by decide) (by decide)).1,
   ((endBatch_session_contract erroredActiveState true).2.2.2 (by decide)
     (by decide) (by decide) (by decide)).2⟩

/-- C10: every error reported to the batch log widget during an active
batch, fatal or not, sets `errorInBatch`; consequently, after a single
non-fatal per-document error in an otherwise successful batch, the
following `endBatch` does not detach the render surface window and
reports Completed with errors instead, while still clearing the
session to inactive. -/
theorem reportError_marks_batch (s : RenderState) (t m : String) (fatal : Bool) :
    (s.batchStarted = true → (reportError t m fatal s).errorInBatch = true)
    ∧ (s.batchStarted = true → s.renderLeaf = some true →
        s.loadingContainer = true →
        (endBatch (reportError t m false s)).detachCount = s.detachCount
        ∧ (endBatch (reportError t m false s)).progressReports
            = s.progressReports ++ ["Completed with errors"]
        ∧ (endBatch (reportError t m false s)).batchStarted = false) := by
  refine ⟨reportError_sets_error t m fatal s, ?_⟩
  intro hb hl hc
  have hf := reportError_nonfatal_frame t m s
  have hb2 : (reportError t m false s).batchStarted = true := by
    rw [hf.2.2.2.1]; exact hb
  have hl2 : (reportError t m false s).renderLeaf = some true := by
    rw [hf.1]; exact hl
  have hc2 : (reportError t m false s).loadingContainer = true := by
    rw [hf.2.2.2.2.1]; exact hc
  have he2 := reportError_sets_error t m false s hb
  obtain ⟨hd, hp⟩ := endBatch_error_branch (reportError t m false s) hb2 hl2 he2 hc2
  refine ⟨?_, ?_, endBatch_batchStarted _⟩
  · rw [hd, hf.2.2.2.2.2.2.2]
  · rw [hp, hf.2.2.2.2.2.2.1]

/-- Closed instance of the error-reporting contract on a concrete
healthy batch. -/
theorem reportError_marks_batch_w :
    (reportError "T" "M" true activeState).errorInBatch = true ∧
    (endBatch (reportError "T" "M" false activeState)).detachCount =
      activeState.detachCount ∧
    (endBatch (reportError "T" "M" false activeState)).progressReports =
      activeState.progressReports ++ ["Completed with errors"] :=
  ⟨(reportError_marks_batch activeState "T" "M" true).1 (by decide),
   ((reportError_marks_batch activeState "T" "M" false).2 (by decide) (by decide)
     (by decide)).1,
   ((reportError_marks_batch activeState "T" "M" false).2 (by decide) (by decide)
     (by decide)).2.1⟩

/-! ### Theorems: beginBatch -/

theorem beginBatch_success (s : RenderState) (env : BeginEnv)
    (hb : s.batchStarted = false) (hla : env.leafAttaches = true)
    (hw : env.electronWindowOk = true) :
    (beginBatch env s).2 = none ∧
    (beginBatch env s).1 =
      { s with errorInBatch := false, cancelled := false, batchStarted := true,
               loadingContainer := true, logShowing := false,
               renderLeaf := some true, electronWindow := true } := by
  unfold beginBatch
  rw [if_neg (by simp [hb])]
  dsimp only
  rw [if_neg (by simp [hla])]
  rw [if_neg (by simp [hla])]
  rw [if_neg (by simp [hw])]
  rw [hla]
  exact ⟨rfl, rfl⟩

/-- C3 counterexample: on an inactive session, when the acquired leaf
never attaches within the 2000ms/1ms budget and no cancellation is
observed, `beginBatch` does not behave as claimed: it raises an
exception to the caller, leaves `batchStarted` true and retains the
leaf handle. -/
theorem beginBatch_attach_timeout_cx :
    ¬ ((beginBatch noAttachEnv inactiveState).2 = none ∧
       (beginBatch noAttachEnv inactiveState).1.batchStarted = false ∧
       (beginBatch noAttachEnv inactiveState).1.renderLeaf = none) := by
  decide

/-- C3 amended: when the freshly acquired render surface never attaches
to a visible parent within the 2000ms/1ms polling budget and
cancellation is not observed, `beginBatch` detaches (releases) the
surface once but then raises the exception
`Failed to create leaf for rendering!` to the caller, leaving the
session marked started with the leaf handle still retained (no fatal
error is emitted and the session is not reset to inactive). -/
theorem beginBatch_attach_timeout (s : RenderState) (env : BeginEnv)
    (hb : s.batchStarted = false) (hla : env.leafAttaches = false)
    (hcd : env.cancelDuringWait = false) (hdt : env.detachThrows = false) :
    (beginBatch env s).2 = some "Failed to create leaf for rendering!" ∧
    (beginBatch env s).1.batchStarted = true ∧
    (beginBatch env s).1.renderLeaf = some false ∧
    (beginBatch env s).1.detachCount = s.detachCount + 1 := by
  unfold beginBatch
  rw [if_neg (by simp [hb])]
  dsimp only
  rw [hcd, hla, hdt]
  simp [checkCancelled]

/-- Closed instance of the amended attach-timeout behaviour. -/
theorem beginBatch_attach_timeout_w :
    (beginBatch noAttachEnv inactiveState).2 =
      some "Failed to create leaf for rendering!" ∧
    (beginBatch noAttachEnv inactiveState).1.batchStarted = true ∧
    (beginBatch noAttachEnv inactiveState).1.renderLeaf = some false ∧
    (beginBatch noAttachEnv inactiveState).1.detachCount =
      inactiveState.detachCount + 1 :=
  beginBatch_attach_timeout inactiveState noAttachEnv (by decide) (by decide)
    (by decide) (by decide)

/-! ### Theorems: lone batches in renderFile and renderMarkdown -/

theorem failRenderState_no_cancel (m : String) (s : RenderState) (b : Bool)
    (hc : s.cancelled = false) (hl : s.renderLeaf = some b) :
    failRenderState m s = exportLogError "Rendering failed: " m false s := by
  have hfalse : (checkCancelled s).1 = false := by
    cases hx : (checkCancelled s).1 with
    | false => rfl
    | true =>
      rcases (checkCancelled_true_iff s).1 hx with h | h
      · rw [hc] at h; exact Bool.noConfusion h
      · rw [hl] at h; exact Option.noConfusion h
  unfold failRenderState
  dsimp only
  rw [if_neg (by simp [hfalse])]
  rw [checkCancelled_false_state s hfalse]

theorem renderFile_ok_path (s : RenderState) (hb : s.batchStarted = false) :
    (renderFile false okDocEnv s).1 = Except.ok (some ()) ∧
    (renderFile false okDocEnv s).2.batchStarted = false := by
  have hlog := exportLogLog_frame "" "Exporting single file, starting batch" s
  have hbb := beginBatch_success
    (exportLogLog "" "Exporting single file, starting batch" s) goodBeginEnv
    (by rw [hlog.2.2.2.2.1]; exact hb) rfl rfl
  simp [renderFile, okDocEnv, hb, hbb.1, hbb.2, checkCancelled,
    endBatch_batchStarted]

theorem renderFile_loadfail_path (s : RenderState) (hb : s.batchStarted = false) :
    (renderFile false loadFailDocEnv s).1 = Except.ok none ∧
    (renderFile false loadFailDocEnv s).2.batchStarted = true := by
  have hlog := exportLogLog_frame "" "Exporting single file, starting batch" s
  have hbb := beginBatch_success
    (exportLogLog "" "Exporting single file, starting batch" s) goodBeginEnv
    (by rw [hlog.2.2.2.2.1]; exact hb) rfl rfl
  have hfr := failRenderState_no_cancel "openFile threw"
    ((beginBatch goodBeginEnv
      (exportLogLog "" "Exporting single file, starting batch" s)).1) true
    (by rw [hbb.2]) (by rw [hbb.2])
  have hef := exportLogError_nonfatal_frame "Rendering failed: " "openFile threw"
    ((beginBatch goodBeginEnv
      (exportLogLog "" "Exporting single file, starting batch" s)).1)
  rw [hbb.2] at hfr hef
  simp [renderFile, loadFailDocEnv, hb, hbb.1, hbb.2, hfr, hef.2.2.2.1]

theorem renderFile_cancel_path (s : RenderState) (hb : s.batchStarted = false) :
    (renderFile false cancelDocEnv s).1 = Except.ok none ∧
    (renderFile false cancelDocEnv s).2.batchStarted = false := by
  have hlog := exportLogLog_frame "" "Exporting single file, starting batch" s
  have hbb := beginBatch_success
    (exportLogLog "" "Exporting single file, starting batch" s) goodBeginEnv
    (by rw [hlog.2.2.2.2.1]; exact hb) rfl rfl
  simp [renderFile, cancelDocEnv, hb, hbb.1, hbb.2, checkCancelled,
    endBatch_batchStarted]

theorem renderMarkdown_ok_path (s : RenderState) (hb : s.batchStarted = false) :
    (renderMarkdown okDocEnv s).1 = Except.ok (some ()) ∧
    (renderMarkdown okDocEnv s).2.batchStarted = false := by
  have hlog := exportLogLog_frame "" "Exporting single file, starting batch" s
  have hbb := beginBatch_success
    (exportLogLog "" "Exporting single file, starting batch" s) goodBeginEnv
    (by rw [hlog.2.2.2.2.1]; exact hb) rfl rfl
  simp [renderMarkdown, okDocEnv, hb, hbb.1, hbb.2, checkCancelled,
    endBatch_batchStarted]

theorem renderMarkdown_loadfail_path (s : RenderState)
    (hb : s.batchStarted = false) :
    (renderMarkdown loadFailDocEnv s).1 = Except.ok none ∧
    (renderMarkdown loadFailDocEnv s).2.batchStarted = true := by
  have hlog := exportLogLog_frame "" "Exporting single file, starting batch" s
  have hbb := beginBatch_success
    (exportLogLog "" "Exporting single file, starting batch" s) goodBeginEnv
    (by rw [hlog.2.2.2.2.1]; exact hb) rfl rfl
  have hfr := failRenderState_no_cancel "setViewData threw"
    ((beginBatch goodBeginEnv
      (exportLogLog "" "Exporting single file, starting batch" s)).1) true
    (by rw [hbb.2]) (by rw [hbb.2])
  have hef := exportLogError_nonfatal_frame "Rendering failed: " "setViewData threw"
    ((beginBatch goodBeginEnv
      (exportLogLog "" "Exporting single file, starting batch" s)).1)
  rw [hbb.2] at hfr hef
  simp [renderMarkdown, loadFailDocEnv, hb, hbb.1, hbb.2, hfr, hef.2.2.2.1]

/-- C2 counterexample: a `renderFile` call on an inactive session whose
document fails to load returns the per-document failure result but
leaves the implicitly opened lone batch open (`batchStarted` stays
true), so the session is not inactive again after the call. -/
theorem renderFile_lone_batch_cx :
    (renderFile false loadFailDocEnv inactiveState).1 = Except.ok none ∧
    ¬ ((renderFile false loadFailDocEnv inactiveState).2.batchStarted = false) := by
  decide

/-- C2 amended: a `renderFile` or `renderMarkdown` call made while no
batch is active implicitly opens a lone batch, and closes it before
returning on the fully successful path and whenever cancellation is
observed (through the `endBatch` forced by `checkCancelled`); but on a
per-document failure without cancellation (here: the document load
throwing) the lone batch is left open, so the session is still active
after the call returns. -/
theorem renderFile_lone_batch (s : RenderState) (hb : s.batchStarted = false) :
    ((renderFile false okDocEnv s).1 = Except.ok (some ()) ∧
     (renderFile false okDocEnv s).2.batchStarted = false)
    ∧ ((renderFile false loadFailDocEnv s).1 = Except.ok none ∧
       (renderFile false loadFailDocEnv s).2.batchStarted = true)
    ∧ ((renderFile false cancelDocEnv s).1 = Except.ok none ∧
       (renderFile false cancelDocEnv s).2.batchStarted = false)
    ∧ ((renderMarkdown okDocEnv s).1 = Except.ok (some ()) ∧
       (renderMarkdown okDocEnv s).2.batchStarted = false)
    ∧ ((renderMarkdown loadFailDocEnv s).1 = Except.ok none ∧
       (renderMarkdown loadFailDocEnv s).2.batchStarted = true) :=
  ⟨renderFile_ok_path s hb, renderFile_loadfail_path s hb,
   renderFile_cancel_path s hb, renderMarkdown_ok_path s hb,
   renderMarkdown_loadfail_path s hb⟩

/-- Closed instance of the amended lone-batch behaviour on the inactive
session. -/
theorem renderFile_lone_batch_w :
    ((renderFile false okDocEnv inactiveState).1 = Except.ok (some ()) ∧
     (renderFile false okDocEnv inactiveState).2.batchStarted = false)
    ∧ ((renderFile false loadFailDocEnv inactiveState).1 = Except.ok none ∧
       (renderFile false loadFailDocEnv inactiveState).2.batchStarted = true)
    ∧ ((renderFile false cancelDocEnv inactiveState).1 = Except.ok none ∧
       (renderFile false cancelDocEnv inactiveState).2.batchStarted = false)
    ∧ ((renderMarkdown okDocEnv inactiveState).1 = Except.ok (some ()) ∧
       (renderMarkdown okDocEnv inactiveState).2.batchStarted = false)
    ∧ ((renderMarkdown loadFailDocEnv inactiveState).1 = Except.ok none ∧
       (renderMarkdown loadFailDocEnv inactiveState).2.batchStarted = true) :=
  renderFile_lone_batch inactiveState (by decide)

/-! ### Theorems: renderMarkdownView timeout policy -/

theorem checkCancelled_healthy (s : RenderState) (b : Bool)
    (hc : s.cancelled = false) (hl : s.renderLeaf = some b) :
    checkCancelled s = (false, s) := by
  unfold checkCancelled
  rw [if_neg]
  intro h
  rcases h with h | h
  · rw [hc] at h; exact Bool.noConfusion h
  · rw [hl] at h; exact Option.noConfusion h

theorem renderSection_all_ok (e : SectionEnv) (s : RenderState)
    (hc : s.cancelled = false) (hl : s.renderLeaf = some true)
    (hok : sectionAllOk e = true) : renderSection e s = (some (), s) := by
  simp only [sectionAllOk, Bool.and_eq_true] at hok
  obtain ⟨⟨⟨h1, h2⟩, h3⟩, h4⟩ := hok
  simp [renderSection, waitStage, h1, h2, h3, h4,
    checkCancelled_healthy s true hc hl]

theorem renderSection_render_timeout (e : SectionEnv) (s : RenderState)
    (hc : s.cancelled = false) (hl : s.renderLeaf = some true)
    (hre : e.renderedInTime = false) :
    renderSection e s =
      (none, exportLogError "Rendering failed: " "Failed to render section!" false s) := by
  have hfr := failRenderState_no_cancel "Failed to render section!" s true hc hl
  simp [renderSection, waitStage, hre, hc, hl, hfr]

theorem renderSection_compute_timeout (e : SectionEnv) (s : RenderState)
    (hc : s.cancelled = false) (hl : s.renderLeaf = some true)
    (h1 : e.renderedInTime = true) (h2 : e.computedInTime = false) :
    renderSection e s =
      (none, exportLogError "Rendering failed: " "Failed to compute section!" false s) := by
  have hfr := failRenderState_no_cancel "Failed to compute section!" s true hc hl
  simp [renderSection, waitStage, h1, h2, hc, hl, hfr]

theorem renderSection_critical_ok (e : SectionEnv) (s : RenderState)
    (hc : s.cancelled = false) (hl : s.renderLeaf = some true)
    (h1 : e.renderedInTime = true) (h2 : e.computedInTime = true) :
    (renderSection e s).1 = some () ∧
    (renderSection e s).2.cancelled = false ∧
    (renderSection e s).2.renderLeaf = some true ∧
    (∀ en, en ∈ s.fullLog → en ∈ (renderSection e s).2.fullLog) ∧
    ((e.transclusionsPopulated = false ∨ e.pluginsPopulated = false) →
      ∃ en, en ∈ (renderSection e s).2.fullLog ∧ en.level = LogLevel.warning) := by
  have hcc1 := checkCancelled_healthy s true hc hl
  cases ht : e.transclusionsPopulated with
  | true =>
    cases hp : e.pluginsPopulated with
    | true =>
      have hres : renderSection e s = (some (), s) :=
        renderSection_all_ok e s hc hl (by simp [sectionAllOk, h1, h2, ht, hp])
      rw [hres]
      exact ⟨rfl, hc, hl, fun en h => h, by simp [ht, hp]⟩
    | false =>
      have hW := exportLogWarning_frame "" "Plugin element not rendered correctly!" s
      have hres : renderSection e s =
          (some (), exportLogWarning "" "Plugin element not rendered correctly!" s) := by
        simp [renderSection, waitStage, h1, h2, ht, hp, hc, hl, hcc1]
      rw [hres]
      refine ⟨rfl, by rw [hW.2.2.2.1]; exact hc, by rw [hW.1]; exact hl, ?_, ?_⟩
      · intro en h
        rw [hW.2.2.2.2.2.2.1]
        exact List.mem_append_left _ h
      · intro _
        refine ⟨⟨LogLevel.warning, "", "Plugin element not rendered correctly!"⟩, ?_, rfl⟩
        rw [hW.2.2.2.2.2.2.1]
        exact List.mem_append_right _ (by simp)
  | false =>
    have hW := exportLogWarning_frame "" "Transclusions were not rendered correctly!" s
    have hc2 : (exportLogWarning "" "Transclusions were not rendered correctly!" s).cancelled = false := by
      rw [hW.2.2.2.1]; exact hc
    have hl2 : (exportLogWarning "" "Transclusions were not rendered correctly!" s).renderLeaf = some true := by
      rw [hW.1]; exact hl
    have hcc2 := checkCancelled_healthy
      (exportLogWarning "" "Transclusions were not rendered correctly!" s) true hc2 hl2
    cases hp : e.pluginsPopulated with
    | true =>
      have hres : renderSection e s =
          (some (), exportLogWarning "" "Transclusions were not rendered correctly!" s) := by
        simp [renderSection, waitStage, h1, h2, ht, hp, hc, hl, hc2, hl2, hcc1, hcc2]
      rw [hres]
      refine ⟨rfl, hc2, hl2, ?_, ?_⟩
      · intro en h
        rw [hW.2.2.2.2.2.2.1]
        exact List.mem_append_left _ h
      · intro _
        refine ⟨⟨LogLevel.warning, "", "Transclusions were not rendered correctly!"⟩, ?_, rfl⟩
        rw [hW.2.2.2.2.2.2.1]
        exact List.mem_append_right _ (by simp)
    | false =>
      have hW2 := exportLogWarning_frame "" "Plugin element not rendered correctly!"
        (exportLogWarning "" "Transclusions were not rendered correctly!" s)
      have hres : renderSection e s =
          (some (), exportLogWarning "" "Plugin element not rendered correctly!"
            (exportLogWarning "" "Transclusions were not rendered correctly!" s)) := by
        simp [renderSection, waitStage, h1, h2, ht, hp, hc, hl, hc2, hl2, hcc1, hcc2]
      rw [hres]
      refine ⟨rfl, by rw [hW2.2.2.2.1]; exact hc2, by rw [hW2.1]; exact hl2, ?_, ?_⟩
      · intro en h
        rw [hW2.2.2.2.2.2.2.1, hW.2.2.2.2.2.2.1]
        exact List.mem_append_left _ (List.mem_append_left _ h)
      · intro _
        refine ⟨⟨LogLevel.warning, "", "Transclusions were not rendered correctly!"⟩, ?_, rfl⟩
        rw [hW2.2.2.2.2.2.2.1, hW.2.2.2.2.2.2.1]
        exact List.mem_append_left _ (List.mem_append_right _ (by simp))

theorem renderMarkdownView_crit (envs : List SectionEnv) :
    ∀ (s : RenderState), s.cancelled = false → s.renderLeaf = some true →
    (∀ e ∈ envs, e.renderedInTime = true ∧ e.computedInTime = true) →
    (renderMarkdownView envs s).1 = some () ∧
    (renderMarkdownView envs s).2.cancelled = false ∧
    (renderMarkdownView envs s).2.renderLeaf = some true ∧
    (∀ en, en ∈ s.fullLog → en ∈ (renderMarkdownView envs s).2.fullLog) ∧
    (∀ e ∈ envs, (e.transclusionsPopulated = false ∨ e.pluginsPopulated = false) →
      ∃ en, en ∈ (renderMarkdownView envs s).2.fullLog ∧
        en.level = LogLevel.warning) := by
  induction envs with
  | nil =>
    intro s hc hl _
    refine ⟨rfl, hc, hl, fun en h => h, ?_⟩
    intro e he
    exact absurd he (List.not_mem_nil e)
  | cons e rest ih =>
    intro s hc hl hcrit
    obtain ⟨h1, h2⟩ := hcrit e (List.mem_cons_self e rest)
    have hsec := renderSection_critical_ok e s hc hl h1 h2
    have hstep : renderMarkdownView (e :: rest) s =
        renderMarkdownView rest (renderSection e s).2 := by
      simp only [renderMarkdownView]
      rw [hsec.1]
    have hrest := ih (renderSection e s).2 hsec.2.1 hsec.2.2.1
      (fun x hx => hcrit x (List.mem_cons_of_mem e hx))
    rw [hstep]
    refine ⟨hrest.1, hrest.2.1, hrest.2.2.1, ?_, ?_⟩
    · intro en h
      exact hrest.2.2.2.1 en (hsec.2.2.2.1 en h)
    · intro x hx hmiss
      rcases List.mem_cons.1 hx with hx1 | hx2
      · obtain ⟨en, hen, hlev⟩ := hsec.2.2.2.2 (hx1 ▸ hmiss)
        exact ⟨en, hrest.2.2.2.1 en hen, hlev⟩
      · exact hrest.2.2.2.2 x hx2 hmiss

theorem renderMarkdownView_fail (pre : List SectionEnv) :
    ∀ (s : RenderState) (e : SectionEnv) (post : List SectionEnv),
    s.cancelled = false → s.renderLeaf = some true →
    (∀ x ∈ pre, sectionAllOk x = true) →
    (e.renderedInTime = false ∨
      (e.renderedInTime = true ∧ e.computedInTime = false)) →
    (renderMarkdownView (pre ++ e :: post) s).1 = none ∧
    ∃ en, en ∈ (renderMarkdownView (pre ++ e :: post) s).2.fullLog ∧
      en.level = LogLevel.error := by
  induction pre with
  | nil =>
    intro s e post hc hl _ hf
    have hres : renderSection e s =
        (none, exportLogError "Rendering failed: "
          (if e.renderedInTime = false then "Failed to render section!"
           else "Failed to compute section!") false s) := by
      rcases hf with h | ⟨h1, h2⟩
      · rw [if_pos h]
        exact renderSection_render_timeout e s hc hl h
      · rw [if_neg (by simp [h1])]
        exact renderSection_compute_timeout e s hc hl h1 h2
    have hE := exportLogError_nonfatal_frame "Rendering failed: "
      (if e.renderedInTime = false then "Failed to render section!"
       else "Failed to compute section!") s
    have hstep : renderMarkdownView ([] ++ e :: post) s =
        (none, (renderSection e s).2) := by
      simp only [List.nil_append, renderMarkdownView]
      rw [hres]
    rw [hstep]
    refine ⟨rfl, ?_⟩
    refine ⟨⟨LogLevel.error, "Rendering failed: ",
      (if e.renderedInTime = false then "Failed to render section!"
       else "Failed to compute section!")⟩, ?_, rfl⟩
    rw [hres]
    dsimp only
    rw [hE.2.2.2.2.2.1]
    exact List.mem_append_right _ (by simp)
  | cons x pre ih =>
    intro s e post hc hl hpre hf
    have hx := renderSection_all_ok x s hc hl (hpre x (List.mem_cons_self x pre))
    have hstep : renderMarkdownView ((x :: pre) ++ e :: post) s =
        renderMarkdownView (pre ++ e :: post) s := by
      simp only [List.cons_append, renderMarkdownView]
      rw [hx]
      rfl
    rw [hstep]
    exact ih s e post hc hl (fun y hy => hpre y (List.mem_cons_of_mem x hy)) hf

/-- C6: in the markdown section renderer, a 2000ms/1ms polling timeout
waiting for a section to be rendered, or for its measurement to be
computed, fails the whole document render (the renderer logs an error
and returns no content); a 500ms/1ms timeout waiting for nested
transclusions or generic plugin blocks to populate only logs a warning
and the document render still completes. -/
theorem renderMarkdownView_timeout_policy :
    (∀ (s : RenderState) (pre : List SectionEnv) (e : SectionEnv)
        (post : List SectionEnv),
      s.cancelled = false → s.renderLeaf = some true →
      (∀ x ∈ pre, sectionAllOk x = true) →
      (e.renderedInTime = false ∨
        (e.renderedInTime = true ∧ e.computedInTime = false)) →
      (renderMarkdownView (pre ++ e :: post) s).1 = none ∧
      ∃ en, en ∈ (renderMarkdownView (pre ++ e :: post) s).2.fullLog ∧
        en.level = LogLevel.error)
    ∧ (∀ (s : RenderState) (envs : List SectionEnv),
      s.cancelled = false → s.renderLeaf = some true →
      (∀ x ∈ envs, x.renderedInTime = true ∧ x.computedInTime = true) →
      (renderMarkdownView envs s).1 = some () ∧
      (∀ x ∈ envs,
        (x.transclusionsPopulated = false ∨ x.pluginsPopulated = false) →
        ∃ en, en ∈ (renderMarkdownView envs s).2.fullLog ∧
          en.level = LogLevel.warning)) :=
  ⟨fun s pre e post hc hl hpre hf => renderMarkdownView_fail pre s e post hc hl hpre hf,
   fun s envs hc hl hcrit =>
     ⟨(renderMarkdownView_crit envs s hc hl hcrit).1,
      (renderMarkdownView_crit envs s hc hl hcrit).2.2.2.2⟩⟩

/-- Closed instance of the timeout policy: a document with one good and
one render-timeout section fails with an error logged, while a document
whose only section misses the transclusion settle completes with a
warning logged. -/
theorem renderMarkdownView_timeout_policy_w :
    ((renderMarkdownView [okSection, slowRenderSection] activeState).1 = none)
    ∧ ((renderMarkdownView [slowTransclusionSection] activeState).1 = some ())
    ∧ (∃ en, en ∈ (renderMarkdownView [slowTransclusionSection] activeState).2.fullLog ∧
        en.level = LogLevel.warning) :=
  ⟨(renderMarkdownView_timeout_policy.1 activeState [okSection] slowRenderSection []
      (by decide) (by decide) (by decide) (Or.inl (by decide))).1,
   (renderMarkdownView_timeout_policy.2 activeState [slowTransclusionSection]
      (by decide) (by decide) (by decide)).1,
   (renderMarkdownView_timeout_policy.2 activeState [slowTransclusionSection]
      (by decide) (by decide) (by decide)).2 slowTransclusionSection (by simp)
      (Or.inl (by decide))⟩

/-! ### Theorems: canvas inline-vs-reference decision -/

/-- C1 counterexample: for a canvas node embedding `a.md` with an
available child preview, with `inlineHTML` unset and `a.md` present in
the export set, the claimed decision rule (inline exactly when the path
is in the export set or `inlineHTML` is set) is false: the code
substitutes the reference placeholder although the path is in the
export set, because its condition uses the negation of the membership
test. -/
theorem renderCanvasNode_cx :
    ¬ ((renderCanvasNode false ["a.md"] c1node = NodeOutput.inlinedEmbed) ↔
        (false = true ∨ "a.md" ∈ ["a.md"])) := by
  decide

/-- C1 amended: for a file-embedding canvas node whose child preview is
available, `renderCanvas` inlines the embedded content exactly when
`options.inlineHTML` is set or the embedded path is NOT in the batch
export set; otherwise it substitutes the static reference placeholder
whose parent carries the path in its `src` attribute.  The session-level
`renderCanvas` maps this decision over the nodes. -/
theorem renderCanvasNode_inline_decision (inlineHTML : Bool)
    (exported : List String) (node : CanvasNode) (p : String)
    (hf : node.file = some p) (he : node.hasEmbedEl = true)
    (hp : node.hasChildPreview = true) :
    ((renderCanvasNode inlineHTML exported node = NodeOutput.inlinedEmbed) ↔
      (inlineHTML = true ∨ exported.contains p = false))
    ∧ ((renderCanvasNode inlineHTML exported node =
        NodeOutput.referencePlaceholder p) ↔
      ¬ (inlineHTML = true ∨ exported.contains p = false))
    ∧ (∀ s : RenderState, s.cancelled = false → s.renderLeaf = some true →
        (renderCanvas inlineHTML exported [node] s).1 =
          some [renderCanvasNode inlineHTML exported node]) := by
  refine ⟨?_, ?_, ?_⟩
  · cases hIH : inlineHTML with
    | true => simp [renderCanvasNode, hf, he, hp]
    | false =>
      by_cases hm : exported.contains p = false
      · simp [renderCanvasNode, hf, he, hp, hm]
      · simp [renderCanvasNode, hf, he, hp, hm]
  · cases hIH : inlineHTML with
    | true => simp [renderCanvasNode, hf, he, hp]
    | false =>
      by_cases hm : exported.contains p = false
      · simp [renderCanvasNode, hf, he, hp, hm]
      · simp [renderCanvasNode, hf, he, hp, hm]
  · intro s hc hl
    simp [renderCanvas, checkCancelled_healthy s true hc hl]

/-- Closed instance of the amended decision: with the path absent from
the export set and `inlineHTML` unset, the node is inlined; the
session-level canvas renderer reports the same decision. -/
theorem renderCanvasNode_inline_decision_w :
    ((renderCanvasNode false ["b.md"] c1node = NodeOutput.inlinedEmbed) ↔
      (false = true ∨ List.contains ["b.md"] "a.md" = false))
    ∧ ((renderCanvasNode false ["b.md"] c1node =
        NodeOutput.referencePlaceholder "a.md") ↔
      ¬ (false = true ∨ List.contains ["b.md"] "a.md" = false))
    ∧ ((renderCanvas false ["b.md"] [c1node] activeState).1 =
        some [renderCanvasNode false ["b.md"] c1node]) :=
  ⟨(renderCanvasNode_inline_decision false ["b.md"] c1node "a.md" rfl rfl rfl).1,
   (renderCanvasNode_inline_decision false ["b.md"] c1node "a.md" rfl rfl rfl).2.1,
   (renderCanvasNode_inline_decision false ["b.md"] c1node "a.md" rfl rfl rfl).2.2
     activeState (by decide) (by decide)⟩

/-! ### Theorems: heading trees and post-processing -/

/-- C9: on the flat sibling sequence [h1, p, h2, p, h3, p, h2, p] the
heading tree builder moves each subsequent sibling into the nearest
preceding heading wrapper, stopping at the first sibling wrapping a
heading of equal-or-shallower level: the h3 paragraph nests under h3,
h3 with its paragraph nests under the first h2, the second h2 with its
paragraph stays a sibling of the first h2, and everything nests under
h1 (h1 itself carrying no collapse indicator in the final output). -/
theorem makeHeadingsTrees_example : makeHeadingsTrees c9input = c9expected := by rfl

/-- C8 counterexample: the post-process pipeline is not idempotent.  On
a document holding one text input with live value `hello`, the first
run serializes the value into the `value` attribute; the second run
re-fires the serialization with the now-cleared live value and
overwrites the attribute with the empty string, changing the tree. -/
theorem postProcessHTML_not_idempotent :
    attrGet "value"
      (elHead (postProcessHTML (fun s => s) true c8input)).attrs = some "hello"
    ∧ attrGet "value"
      (elHead (postProcessHTML (fun s => s) true
        (postProcessHTML (fun s => s) true c8input))).attrs = some ""
    ∧ postProcessHTML (fun s => s) true (postProcessHTML (fun s => s) true c8input)
        ≠ postProcessHTML (fun s => s) true c8input := by
  refine ⟨rfl, rfl, ?_⟩
  intro h
  have e1 : attrGet "value"
      (elHead (postProcessHTML (fun s => s) true
        (postProcessHTML (fun s => s) true c8input))).attrs = some "" := rfl
  rw [h] at e1
  exact absurd e1 (by decide)

theorem attrGet_attrRemove (k : String) (a : List (String × String)) :
    attrGet k (attrRemove k a) = none := by
  induction a with
  | nil => rfl
  | cons kv rest ih =>
    by_cases h : kv.1 = k
    · simpa [attrRemove, List.filter_cons, h] using ih
    · simpa [attrRemove, attrGet, List.filter_cons, List.find?_cons, h] using ih

theorem widthFix_children (e : Elem) : (widthFix e).children = e.children := by
  cases e with
  | mk i t c a st v d tx cs =>
    unfold widthFix
    dsimp only
    split
    · split <;> rfl
    · rfl

theorem widthFix_idem (e : Elem) : widthFix (widthFix e) = widthFix e := by
  cases e with
  | mk i t c a st v d tx cs =>
    by_cases hpred : (t == "IMG" || t == "VIDEO" ||
        (c.contains "media-embed" &&
          cs.any (fun ch => ch.tag == "IMG" || ch.tag == "VIDEO"))) = true
    · cases hw : attrGet "width" a with
      | some w =>
        have h1 : widthFix (Elem.mk i t c a st v d tx cs) =
            Elem.mk i t c (attrRemove "width" a)
              (styleSet "max-width" "100%"
                (styleSet "width" (if w.trim != "" then w ++ "px" else "") st))
              v d tx cs := by
          rw [widthFix.eq_1, if_pos hpred, hw]
        rw [h1]
        rw [widthFix.eq_1, if_pos hpred, attrGet_attrRemove]
      | none =>
        have h1 : widthFix (Elem.mk i t c a st v d tx cs) =
            Elem.mk i t c a st v d tx cs := by
          rw [widthFix.eq_1, if_pos hpred, hw]
        rw [h1, h1]
    · have h1 : widthFix (Elem.mk i t c a st v d tx cs) =
          Elem.mk i t c a st v d tx cs := by
        rw [widthFix.eq_1, if_neg hpred]
      rw [h1, h1]

mutual
theorem elMap_widthFix_idem :
    ∀ e : Elem, elMap widthFix (elMap widthFix e) = elMap widthFix e
  | .mk i t c a st v d tx cs => by
    have hcs := elMapF_widthFix_idem cs
    cases hY : widthFix (Elem.mk i t c a st v d tx (elMapF widthFix cs)) with
    | mk i2 t2 c2 a2 st2 v2 d2 tx2 cs2 =>
      have hcs2 : cs2 = elMapF widthFix cs := by
        have hch := widthFix_children (Elem.mk i t c a st v d tx (elMapF widthFix cs))
        rw [hY] at hch
        exact hch
      calc elMap widthFix (elMap widthFix (Elem.mk i t c a st v d tx cs))
          = elMap widthFix
              (widthFix (Elem.mk i t c a st v d tx (elMapF widthFix cs))) := by
            simp only [elMap]
        _ = elMap widthFix (Elem.mk i2 t2 c2 a2 st2 v2 d2 tx2 cs2) := by rw [hY]
        _ = widthFix (Elem.mk i2 t2 c2 a2 st2 v2 d2 tx2 (elMapF widthFix cs2)) := by
            simp only [elMap]
        _ = widthFix (Elem.mk i2 t2 c2 a2 st2 v2 d2 tx2 cs2) := by
            rw [hcs2, hcs, ← hcs2]
        _ = widthFix (widthFix (Elem.mk i t c a st v d tx (elMapF widthFix cs))) := by
            rw [hY]
        _ = widthFix (Elem.mk i t c a st v d tx (elMapF widthFix cs)) :=
            widthFix_idem _
        _ = elMap widthFix (Elem.mk i t c a st v d tx cs) := by
            simp only [elMap]
theorem elMapF_widthFix_idem :
    ∀ l : List Elem, elMapF widthFix (elMapF widthFix l) = elMapF widthFix l
  | [] => rfl
  | x :: xs => by
    simp only [elMapF]
    rw [elMap_widthFix_idem x, elMapF_widthFix_idem xs]
end

/-- C8 amended: unlike the text-input serialization and the tag-link
rewrite, the width-attribute-to-max-width conversion is idempotent: a
second application of the width conversion step to any element tree
changes nothing, because the first application removed every matching
width attribute. -/
theorem widthStep_idem (root : Elem) : widthStep (widthStep root) = widthStep root := by
  cases root with
  | mk i t c a st v d tx cs =>
    simp only [widthStep, elMapDesc, elSetChildren, Elem.children]
    rw [elMapF_widthFix_idem]
